import Mathlib

/-!
A verification development for the data-type utilities, initializer
unpackers and local-declaration processing of a C-to-WebAssembly
compiler's semantic analyzer ("the Processor").

The data-type utility functions (`getDataTypeSize`, `unpackDataType`,
`checkDataTypeCompatibility`, `checkAssignability`,
`checkAssignabilityOfPointers`, `convertFunctionDataTypeToFunctionDetails`,
`isNullPointerConstant`, `stringifyDataType`) and the two initializer
unpackers (`unpackLocalVariableInitializerAccordingToDataType`,
`unpackDataSegmentInitializerAccordingToDataType`) together with
`processLocalDeclaration` are translated directly from the TypeScript
source.  Collaborator modules that the source imports but whose code is
not available (the compile-time expression evaluator, the byte-string
utilities, the symbol table, `processExpression`,
`getDataTypeOfExpression` and the primitive size tables) are modelled
from the specification; each such definition carries a doc comment
starting with `Modelled from the spec:`.

JavaScript `throw` of a `ProcessingError` is modelled as
`Except.error (Err.processing msg)`; a `throw new Error(...)` or a
JavaScript `TypeError` (from accessing a property of `undefined`) is
modelled as `Except.error (Err.internal msg)`, matching the
`instanceof ProcessingError` checks in the source's catch blocks.
-/

/-- Errors raised by the Processor: `processing` corresponds to the
source's `ProcessingError` class, `internal` to plain `Error`s and
runtime `TypeError`s. -/
inductive Err where
  | processing (msg : String)
  | internal (msg : String)
deriving DecidableEq, Repr

/-- Modelled from the spec: the primary scalar C data types of §3.1. -/
inductive PrimaryCDataType where
  | signedChar | unsignedChar
  | signedShort | unsignedShort
  | signedInt | unsignedInt
  | signedLong | unsignedLong
  | float | double
deriving DecidableEq, Repr

/-- Modelled from the spec: a `ScalarCDataType` is a primary C data type
or the type of pointers. -/
inductive ScalarCDataType where
  | primary (p : PrimaryCDataType)
  | pointer
deriving DecidableEq, Repr

/-- Modelled from the spec: sizes of the primary data types (§4.1:
1/2/4/8 bytes per scalar kind). -/
def primaryDataTypeSizes : PrimaryCDataType → Int
  | .signedChar => 1
  | .unsignedChar => 1
  | .signedShort => 2
  | .unsignedShort => 2
  | .signedInt => 4
  | .unsignedInt => 4
  | .signedLong => 8
  | .unsignedLong => 8
  | .float => 4
  | .double => 8

/-- Modelled from the spec: pointers occupy 4 bytes (§4.1). -/
def POINTER_SIZE : Int := 4

/-- Modelled from the spec: enums are represented as `signed int`
(§3.1, §4.1). -/
def ENUM_DATA_TYPE : PrimaryCDataType := .signedInt

/-- Modelled from the spec: the integer type used for pointer values
(pointer size is 4 bytes, a 32-bit unsigned quantity). -/
def POINTER_TYPE : PrimaryCDataType := .unsignedInt

/-- Modelled from the spec: size of a scalar C data type. -/
def getSizeOfScalarDataType : ScalarCDataType → Int
  | .primary p => primaryDataTypeSizes p
  | .pointer => POINTER_SIZE

/-- Modelled from the spec: `isFloatType` on primary data types. -/
def isFloatType : PrimaryCDataType → Bool
  | .float => true
  | .double => true
  | _ => false

/-- Modelled from the spec: `isIntegerType` on primary data types. -/
def isIntegerType (p : PrimaryCDataType) : Bool :=
  !(isFloatType p)

/-- Modelled from the spec (§4.2): expressions, restricted to the forms
the claims exercise — integer literals, float literals and identifier
references.  An identifier reference is not a compile-time constant.
Float values are carried as an opaque integer payload; no claim depends
on float arithmetic or rounding. -/
inductive Expr where
  | intLit (value : Int)
  | floatLit (value : Int)
  | ident (name : String)
deriving DecidableEq, Repr

/-- A compile-time constant: an integer constant (bigint value) or a
float constant, each with a primary data type, mirroring the source's
`ConstantP` shapes. -/
inductive Constant where
  | IntegerConstant (value : Int) (dataType : PrimaryCDataType)
  | FloatConstant (value : Int) (dataType : PrimaryCDataType)
deriving DecidableEq, Repr

/-- Modelled from the spec (§4.2): the compile-time evaluator.  Integer
literals evaluate to integer constants typed `signed int` (the claims
only use literals in `int` range), float literals to `double` float
constants, and an identifier reference fails with the evaluator's
failure message. -/
def evaluateCompileTimeExpression : Expr → Except Err Constant
  | .intLit v => .ok (.IntegerConstant v .signedInt)
  | .floatLit v => .ok (.FloatConstant v .double)
  | .ident _ => .error (.processing "expression is not a compile-time constant")

/-- The `.value` field of a constant, used where the source reads
`constant.value` irrespective of the constant kind. -/
def Constant.valueOf : Constant → Int
  | .IntegerConstant v _ => v
  | .FloatConstant v _ => v

/-- JavaScript `===` comparison of the `.value` fields of two constants:
a bigint (integer constant) and a number (float constant) are never
`===`-equal; within one kind the numeric values are compared. -/
def constantJSEq : Constant → Constant → Bool
  | .IntegerConstant v _, .IntegerConstant w _ => v == w
  | .FloatConstant v _, .FloatConstant w _ => v == w
  | _, _ => false

mutual
/-- Modelled from the spec (§3.1, the TypeScript type declarations are
not part of the available source): the closed algebra of C data types.
`isConst` flags are carried by primary, pointer and array types (absent
flags in the source are `undefined`, i.e. falsy, modelled as `false`).
Enum member lists are omitted: none of the embedded utilities reads
them. -/
inductive DataType where
  | primary (primaryDataType : PrimaryCDataType) (isConst : Bool)
  | pointer (pointeeType : DataType) (isConst : Bool)
  | array (elementDataType : DataType) (numElements : Expr) (isConst : Bool)
  | struct (tag : Option String) (fields : FieldList)
  | enum (tag : Option String)
  | function (returnType : DataType) (parameters : ParamList)
  | void

/-- A struct field: a tag together with either a data type or the
struct-self-pointer marker. -/
inductive StructField where
  | field (tag : String) (dataType : DataType)
  | selfPointer (tag : String)

/-- The ordered list of fields of a struct. -/
inductive FieldList where
  | nil
  | cons (head : StructField) (tail : FieldList)

/-- The ordered list of parameter data types of a function type. -/
inductive ParamList where
  | nil
  | cons (head : DataType) (tail : ParamList)
end

/-- Number of fields in a field list (`fields.length`). -/
def FieldList.length : FieldList → Nat
  | .nil => 0
  | .cons _ rest => rest.length + 1

/-- Number of parameters in a parameter list (`parameters.length`). -/
def ParamList.length : ParamList → Nat
  | .nil => 0
  | .cons _ rest => rest.length + 1

/-- Discriminant of the `type` tag of a data type, used to model the
source's `a.type !== b.type` comparisons. -/
def DataType.kindIndex : DataType → Nat
  | .primary _ _ => 0
  | .pointer _ _ => 1
  | .array _ _ _ => 2
  | .struct _ _ => 3
  | .enum _ => 4
  | .function _ _ => 5
  | .void => 6

/-- JavaScript access of `.isConst` on a data type: `undefined` (on
struct, enum, function and void) is falsy. -/
def DataType.isConstOf : DataType → Bool
  | .primary _ c => c
  | .pointer _ c => c
  | .array _ _ c => c
  | _ => false

/-- The `.pointeeType` field of a pointer data type (only ever read on
pointers in the source). -/
def DataType.pointeeOf : DataType → DataType
  | .pointer p _ => p
  | d => d

/-- Translation of `getNumberOfElementsInArray`: evaluates the array's
`numElements` expression; a float constant or an evaluation failure
(both of which raise a `ProcessingError` inside the `try` block) is
replaced by the VLA error, while any other error propagates unchanged. -/
def getNumberOfElementsInArray (numElements : Expr) : Except Err Int :=
  match evaluateCompileTimeExpression numElements with
  | .ok (.IntegerConstant v _) => .ok v
  | .ok (.FloatConstant _ _) =>
      .error (.processing "Array size must be compile-time constant expression (Variable Length Arrays not supported)")
  | .error (.processing _) =>
      .error (.processing "Array size must be compile-time constant expression (Variable Length Arrays not supported)")
  | .error e => .error e

mutual
/-- Translation of `getDataTypeSize`: size in bytes of a data type.
Primary, pointer and struct-self-pointer return the scalar size; arrays
multiply the element count (via `getNumberOfElementsInArray`) by the
element size; structs sum their field sizes with self-pointers counted
at `POINTER_SIZE`; enums use the size of `ENUM_DATA_TYPE`; `void`
raises a `ProcessingError`; any other shape (function types) falls into
the final `throw new Error` branch. -/
def getDataTypeSize : DataType → Except Err Int
  | .primary p _ => .ok (getSizeOfScalarDataType (.primary p))
  | .pointer _ _ => .ok (getSizeOfScalarDataType .pointer)
  | .array elementDataType numElements _ => do
      let n ← getNumberOfElementsInArray numElements
      let s ← getDataTypeSize elementDataType
      .ok (n * s)
  | .struct _ fields => structFieldsSize fields
  | .enum _ => .ok (primaryDataTypeSizes ENUM_DATA_TYPE)
  | .void => .error (.processing "void value not ignored as it should be")
  | .function _ _ => .error (.internal "getDataTypeSize(): unhandled data type")

/-- The `reduce` over struct fields inside `getDataTypeSize`: a
struct-self-pointer field contributes `POINTER_SIZE`, any other field
its data type's size. -/
def structFieldsSize : FieldList → Except Err Int
  | .nil => .ok 0
  | .cons (.selfPointer _) rest => do
      let s ← structFieldsSize rest
      .ok (s + POINTER_SIZE)
  | .cons (.field _ d) rest => do
      let s ← structFieldsSize rest
      let fs ← getDataTypeSize d
      .ok (s + fs)
end

/-- Translation of `isScalarDataType`: primary data types, pointers and
enums are scalar. -/
def isScalarDataType : DataType → Bool
  | .primary _ _ => true
  | .pointer _ _ => true
  | .enum _ => true
  | _ => false

/-- Translation of `isIntegralDataType`. -/
def isIntegralDataType : DataType → Bool
  | .primary p _ => isIntegerType p
  | .enum _ => true
  | _ => false

/-- Translation of `isFloatDataType`. -/
def isFloatDataType : DataType → Bool
  | .primary p _ => isFloatType p
  | _ => false

/-- Translation of `isArithmeticDataType`: primary data types and enums
are arithmetic. -/
def isArithmeticDataType : DataType → Bool
  | .primary _ _ => true
  | .enum _ => true
  | _ => false

/-- Translation of `isVoidPointer`: a pointer whose pointee type is
`void`. -/
def isVoidPointer : DataType → Bool
  | .pointer .void _ => true
  | _ => false

/-- Translation of `getDecayedArrayPointerType`: the decayed pointer
type of an array type, pointing to the element type and carrying the
array's `isConst` flag. -/
def getDecayedArrayPointerType (elementDataType : DataType) (isConst : Bool) : DataType :=
  .pointer elementDataType isConst

/-- Translation of `getFunctionPointerOfFunction`: a pointer to the
given function type; the source sets no `isConst`, i.e. `undefined`
(falsy). -/
def getFunctionPointerOfFunction (fn : DataType) : DataType :=
  .pointer fn false

/-- Translation of `stringifyDataType` (it evaluates array sizes and can
therefore fail with the evaluator's error). -/
def stringifyDataType : DataType → Except Err String
  | .primary p c =>
      .ok ((if c then "const " else "") ++ stringifyPrimary p)
  | .array elementDataType numElements c => do
      let n ← evaluateCompileTimeExpression numElements
      let elemStr ← stringifyDataType elementDataType
      .ok ((if c then "const " else "") ++ "array with size " ++ toString n.valueOf ++ " of " ++ elemStr)
  | .pointer pointeeType c => do
      let pointeeStr ← stringifyDataType pointeeType
      .ok ((if c then "const " else "") ++ "pointer to " ++ pointeeStr)
  | .function returnType parameters => do
      let paramStrs ← stringifyParams parameters
      let retStr ← stringifyDataType returnType
      .ok ("function (" ++ paramStrs ++ ") returning " ++ retStr)
  | .struct tag _ =>
      .ok ("struct " ++ (match tag with | some t => t | none => " "))
  | .enum tag =>
      .ok ("enum " ++ (match tag with | some t => t | none => "null"))
  | .void => .ok "void"
where
  /-- Names of the primary data types as they appear in the source's
  string union. -/
  stringifyPrimary : PrimaryCDataType → String
    | .signedChar => "signed char"
    | .unsignedChar => "unsigned char"
    | .signedShort => "signed short"
    | .unsignedShort => "unsigned short"
    | .signedInt => "signed int"
    | .unsignedInt => "unsigned int"
    | .signedLong => "signed long"
    | .unsignedLong => "unsigned long"
    | .float => "float"
    | .double => "double"
  /-- The `map`/`join(", ")` over function parameters. -/
  stringifyParams : ParamList → Except Err String
    | .nil => .ok ""
    | .cons p .nil => stringifyDataType p
    | .cons p rest => do
        let s ← stringifyDataType p
        let r ← stringifyParams rest
        .ok (s ++ ", " ++ r)

/-- Translation of `isPointer`. -/
def isPointer : DataType → Bool
  | .pointer _ _ => true
  | _ => false

/-- The tag of a struct field. -/
def StructField.tagOf : StructField → String
  | .field tag _ => tag
  | .selfPointer tag => tag

mutual
/-- Translation of `checkStructFieldCompatibility`: fields are
compatible when their tags agree and either both are the
struct-self-pointer marker, or neither is and their data types are
compatible. -/
def checkStructFieldCompatibility (a b : StructField) (ignoreQualifiers : Bool) : Except Err Bool :=
  match a, b with
  | .selfPointer ta, .selfPointer tb =>
      if !(ta == tb) then .ok false else .ok true
  | .selfPointer ta, .field tb _ =>
      if !(ta == tb) then .ok false else .ok false
  | .field ta _, .selfPointer tb =>
      if !(ta == tb) then .ok false else .ok false
  | .field ta da, .field tb db =>
      if !(ta == tb) then .ok false
      else checkDataTypeCompatibility da db ignoreQualifiers
termination_by structural a

/-- The indexed loop over struct fields inside
`checkDataTypeCompatibility` (runs after the field counts were checked
equal). -/
def compatFieldsLoop (fa fb : FieldList) (ignoreQualifiers : Bool) : Except Err Bool :=
  match fa, fb with
  | .nil, _ => .ok true
  | .cons a ra, .cons b rb => do
      let c ← checkStructFieldCompatibility a b ignoreQualifiers
      if c then compatFieldsLoop ra rb ignoreQualifiers else .ok false
  | .cons _ _, .nil => .ok false
termination_by structural fa

/-- The indexed loop over function parameters inside
`checkDataTypeCompatibility` (runs after the arities were checked
equal). -/
def compatParamsLoop (pa pb : ParamList) (ignoreQualifiers : Bool) : Except Err Bool :=
  match pa, pb with
  | .nil, _ => .ok true
  | .cons a ra, .cons b rb => do
      let c ← checkDataTypeCompatibility a b ignoreQualifiers
      if c then compatParamsLoop ra rb ignoreQualifiers else .ok false
  | .cons _ _, .nil => .ok false
termination_by structural pa

/-- Translation of `checkDataTypeCompatibility`.  The leading condition
mirrors the source exactly: a kind mismatch, or
`!ignoreQualifiers && a.isConst && !b.isConst`, or
`b.isConst && !a.isConst` (the source does not guard this last disjunct
with `!ignoreQualifiers`) yields `false`.  Array sizes are compared by
evaluating both `numElements` expressions (which can fail); all enums
are mutually compatible; the final wildcard models the source's
unreachable `console.assert(false); return false`. -/
def checkDataTypeCompatibility (a b : DataType) (ignoreQualifiers : Bool) : Except Err Bool :=
  if !(a.kindIndex == b.kindIndex)
      || (!ignoreQualifiers && a.isConstOf && !b.isConstOf)
      || (b.isConstOf && !a.isConstOf) then
    .ok false
  else
    match a, b with
    | .primary p _, .primary p' _ => .ok (p == p')
    | .array e n _, .array e' n' _ => do
        let ca ← evaluateCompileTimeExpression n
        let cb ← evaluateCompileTimeExpression n'
        if constantJSEq ca cb then checkDataTypeCompatibility e e' ignoreQualifiers
        else .ok false
    | .function r ps, .function r' ps' =>
        (match r, r' with
         | .void, .void =>
             if !(ps.length == ps'.length) then .ok false
             else compatParamsLoop ps ps' ignoreQualifiers
         | .void, _ => .ok false
         | _, .void => .ok false
         | _, _ => do
             let c ← checkDataTypeCompatibility r r' ignoreQualifiers
             if c then
               if !(ps.length == ps'.length) then .ok false
               else compatParamsLoop ps ps' ignoreQualifiers
             else .ok false)
    | .struct t fs, .struct t' fs' =>
        if !(t == t') then .ok false
        else if !(fs.length == fs'.length) then .ok false
        else compatFieldsLoop fs fs' ignoreQualifiers
    | .pointer p _, .pointer p' _ =>
        (match p, p' with
         | .void, .void => .ok true
         | .void, _ => .ok false
         | _, .void => .ok false
         | _, _ => checkDataTypeCompatibility p p' ignoreQualifiers)
    | .enum _, .enum _ => .ok true
    | .void, .void => .ok true
    | _, _ => .ok false
termination_by structural a
end

/-- A primary memory object produced by `unpackDataType`: a scalar data
type together with its byte offset from the start of the unpacked
object. -/
structure PrimaryDataTypeMemoryObjectDetails where
  dataType : ScalarCDataType
  offset : Int
deriving DecidableEq, Repr

/-- Sequential iteration of an `Except`-valued step, modelling a
JavaScript `for (let i = 0; i < n; i++)` loop over a monadic body. -/
def repeatM {α : Type} (n : Nat) (f : α → Except Err α) (a : α) : Except Err α :=
  match n with
  | 0 => .ok a
  | n + 1 => do repeatM n f (← f a)

mutual
/-- Translation of the `recursiveHelper` closure of `unpackDataType`:
threads the mutable `currOffset` and the accumulated list explicitly
(the returned list is what this call appended, the returned integer the
updated `currOffset`). -/
def unpackHelper : DataType → Int → Except Err (List PrimaryDataTypeMemoryObjectDetails × Int)
  | .primary p c, currOffset => do
      let sz ← getDataTypeSize (.primary p c)
      .ok ([⟨.primary p, currOffset⟩], currOffset + sz)
  | .pointer pt c, currOffset => do
      let sz ← getDataTypeSize (.pointer pt c)
      .ok ([⟨.pointer, currOffset⟩], currOffset + sz)
  | .array elementDataType numElements _, currOffset => do
      let n ← getNumberOfElementsInArray numElements
      repeatM n.toNat
        (fun st => do
          let (l, off) ← unpackHelper elementDataType st.2
          .ok (st.1 ++ l, off))
        ([], currOffset)
  | .struct tag fields, currOffset =>
      unpackFieldsHelper (.struct tag fields) fields currOffset
  | .enum tag, currOffset => do
      let sz ← getDataTypeSize (.enum tag)
      .ok ([⟨.primary ENUM_DATA_TYPE, currOffset⟩], currOffset + sz)
  | .void, _ => .error (.internal "unpackDataType(): Invalid data type to unpack")
  | .function _ _, _ => .error (.internal "unpackDataType(): Invalid data type to unpack")

/-- The loop over struct fields inside `recursiveHelper`.  At a
struct-self-pointer field the source pushes a pointer memory object and
then advances `currOffset` by `getDataTypeSize(dataType)` where
`dataType` is the enclosing *struct*, not the pointer — this translation
reproduces that line as written. -/
def unpackFieldsHelper (enclosing : DataType) : FieldList → Int → Except Err (List PrimaryDataTypeMemoryObjectDetails × Int)
  | .nil, currOffset => .ok ([], currOffset)
  | .cons (.selfPointer _) rest, currOffset => do
      let sz ← getDataTypeSize enclosing
      let (l, off) ← unpackFieldsHelper enclosing rest (currOffset + sz)
      .ok (⟨.pointer, currOffset⟩ :: l, off)
  | .cons (.field _ d) rest, currOffset => do
      let (l, off) ← unpackHelper d currOffset
      let (l', off') ← unpackFieldsHelper enclosing rest off
      .ok (l ++ l', off')
end

/-- Translation of `unpackDataType`: the list of primary memory objects
of a data type, offsets starting from 0. -/
def unpackDataType (dataType : DataType) : Except Err (List PrimaryDataTypeMemoryObjectDetails) := do
  let (l, _) ← unpackHelper dataType 0
  .ok l

/-- The `FunctionDetails` record produced by
`convertFunctionDataTypeToFunctionDetails`. -/
structure FunctionDetails where
  sizeOfParams : Int
  sizeOfReturn : Int
  parameters : List PrimaryDataTypeMemoryObjectDetails
  returnObjects : Option (List PrimaryDataTypeMemoryObjectDetails)
deriving DecidableEq, Repr

/-- The `for (const param of dataType.parameters)` loop of
`convertFunctionDataTypeToFunctionDetails`: decrements the running
offset by each parameter's size, then appends the parameter's unpacked
primaries, rebased at that offset, in reverse order. -/
def convertParamsLoop : ParamList → Int → FunctionDetails → Except Err FunctionDetails
  | .nil, _, functionDetails => .ok functionDetails
  | .cons param rest, offset, functionDetails => do
      let dataTypeSize ← getDataTypeSize param
      let offset' := offset - dataTypeSize
      let unpacked ← unpackDataType param
      let unpackedParam : List PrimaryDataTypeMemoryObjectDetails :=
        unpacked.map fun s => ⟨s.dataType, offset' + s.offset⟩
      convertParamsLoop rest offset'
        { functionDetails with
          sizeOfParams := functionDetails.sizeOfParams + dataTypeSize,
          parameters := functionDetails.parameters ++ unpackedParam.reverse }

/-- Translation of `convertFunctionDataTypeToFunctionDetails` (taking
the function type's return type and parameter list). -/
def convertFunctionDataTypeToFunctionDetails (returnType : DataType) (parameters : ParamList) : Except Err FunctionDetails := do
  let base : FunctionDetails := ⟨0, 0, [], none⟩
  let withRet ←
    (match returnType with
     | .void => pure base
     | .array _ _ _ => .error (.processing "array is not a valid return type from a function")
     | _ => do
        let sz ← getDataTypeSize returnType
        let objs ← unpackDataType returnType
        pure { base with
               sizeOfReturn := sz,
               returnObjects := some (objs.map fun s => ⟨s.dataType, s.offset⟩) })
  convertParamsLoop parameters 0 withRet

/-- Modelled from the spec (§3.3, §4.5): processed scalar expressions,
restricted to the node shapes the claims exercise; `undefinedValue`
stands for the JavaScript `undefined` read from an out-of-range vector
index. -/
inductive ExpressionP where
  | IntegerConstant (value : Int) (dataType : PrimaryCDataType)
  | FloatConstant (value : Int) (dataType : PrimaryCDataType)
  | MemoryLoad (dataType : ScalarCDataType)
  | undefinedValue
deriving DecidableEq, Repr

/-- The public shape of a processed expression: its original data type
and one scalar expression per unpacked primary field. -/
structure ExpressionWrapperP where
  originalDataType : DataType
  exprs : List ExpressionP

/-- Translation of `isNullPointerConstant`: the first scalar expression
is an `IntegerConstant` whose value is 0.  The source indexes
`exprs[0]`; an empty vector never reaches this test, modelled as
`false`. -/
def isNullPointerConstant (expr : ExpressionWrapperP) : Bool :=
  match expr.exprs with
  | .IntegerConstant v _ :: _ => v == 0
  | _ => false

/-- Modelled from the spec (§4.1 decay rules; the source's
`getDataTypeOfExpression` lives in a module that is not available): the
data type of an expression, decaying arrays to element pointers and
functions to function pointers when the corresponding flag is set. -/
def getDataTypeOfExpression (expression : ExpressionWrapperP) (convertArrayToPointer : Bool) (convertFunctionToPointer : Bool) : DataType :=
  match expression.originalDataType with
  | .array e n c =>
      if convertArrayToPointer then getDecayedArrayPointerType e c else .array e n c
  | .function r ps =>
      if convertFunctionToPointer then getFunctionPointerOfFunction (.function r ps) else .function r ps
  | d => d

/-- Translation of `checkAssignabilityOfPointers`: assignment between
two pointers is allowed when either is a void pointer; otherwise it is
rejected when the right pointee is `const` but the left pointee is not,
and otherwise decided by compatibility of the pointees with
`ignoreQualifiers = true`. -/
def checkAssignabilityOfPointers (left right : DataType) : Except Err Bool :=
  match left, right with
  | .pointer lp lc, .pointer rp rc =>
      if isVoidPointer (.pointer lp lc) || isVoidPointer (.pointer rp rc) then .ok true
      else if !(lp.isConstOf) && rp.isConstOf then .ok false
      else checkDataTypeCompatibility lp rp true
  | _, _ => .error (.internal "TypeError")

/-- Translation of `checkAssignability` (C17 6.5.16.1): an array,
function or void lvalue is never assignable; a pointer lvalue accepts a
null pointer constant; otherwise both arithmetic, or compatible structs,
or assignable pointers. -/
def checkAssignability (lvalue : DataType) (expr : ExpressionWrapperP) : Except Err Bool :=
  match lvalue with
  | .array _ _ _ => .ok false
  | .function _ _ => .ok false
  | .void => .ok false
  | lv =>
      let exprDataType := getDataTypeOfExpression expr true true
      if isPointer lv && isNullPointerConstant expr then .ok true
      else if isArithmeticDataType lv && isArithmeticDataType exprDataType then .ok true
      else do
        let structCompatible ←
          (match lv with
           | .struct _ _ => checkDataTypeCompatibility lv exprDataType false
           | _ => pure false)
        if structCompatible then .ok true
        else
          (match lv, exprDataType with
           | .pointer _ _, .pointer _ _ => checkAssignabilityOfPointers lv exprDataType
           | _, _ => .ok false)

mutual
/-- An initializer from the parsed AST: a single expression or a brace
list. -/
inductive Initializer where
  | single (value : Expr)
  | list (values : InitializerList)

/-- The element list of an `InitializerList`. -/
inductive InitializerList where
  | nil
  | cons (head : Initializer) (tail : InitializerList)
end

/-- Number of elements of an initializer list (`values.length`). -/
def InitializerList.length : InitializerList → Nat
  | .nil => 0
  | .cons _ rest => rest.length + 1

/-- Indexing `values[offset]` of an initializer list (`none` models the
JavaScript `undefined` of an out-of-range read). -/
def InitializerList.get? : InitializerList → Nat → Option Initializer
  | .nil, _ => none
  | .cons head _, 0 => some head
  | .cons _ rest, n + 1 => rest.get? n

/-- Modelled from the spec (§4.5, `processExpression` is not part of the
available source): processing of the expression forms the claims
exercise.  An integer literal becomes a `signed int` integer constant,
a float literal a `double` float constant, and an identifier reference
fails with the undeclared-identifier error (no symbol population is
exercised by the claims). -/
def processExpression : Expr → Except Err ExpressionWrapperP
  | .intLit v => .ok ⟨.primary .signedInt false, [.IntegerConstant v .signedInt]⟩
  | .floatLit v => .ok ⟨.primary .double false, [.FloatConstant v .double]⟩
  | .ident name => .error (.processing ("'" ++ name ++ "' undeclared"))

/-- Modelled from the spec: `createMemoryOffsetIntegerConstant` wraps a
byte offset as an integer constant of the pointer-sized integer type. -/
def createMemoryOffsetIntegerConstant (offset : Int) : ExpressionP :=
  .IntegerConstant offset POINTER_TYPE

/-- Translation of `createStructSelfPointerDataType`: a pointer to the
given (enclosing) struct, with no `isConst` set. -/
def createStructSelfPointerDataType (struct : DataType) : DataType :=
  .pointer struct false

/-- A `MemoryStore` IR statement: the local address'  offset constant,
the stored scalar value and its scalar data type. -/
structure MemoryStore where
  address : ExpressionP
  value : ExpressionP
  dataType : ScalarCDataType
deriving DecidableEq, Repr

/-- The mutable context of `unpackLocalVariableInitializerAccordingToDataType`:
the running `currOffset`, the accumulated `memoryStoreStatements` and
the `structBeingFilled` variable used by the struct-self-pointer
logic. -/
structure LState where
  currOffset : Int
  stores : List MemoryStore
  structBeingFilled : Option DataType

/-- Translation of `checkIntializerExpressionAssignability` (the
source's spelling): raises the incompatible-types `ProcessingError`
when `checkAssignability` fails; building the message stringifies both
data types, which can itself fail on non-constant array sizes. -/
def checkIntializerExpressionAssignability (lvalue : DataType) (expr : ExpressionWrapperP) : Except Err Unit := do
  let assignable ← checkAssignability lvalue expr
  if assignable then .ok ()
  else do
    let l ← stringifyDataType lvalue
    let r ← stringifyDataType (getDataTypeOfExpression expr true true)
    .error (.processing ("incompatible types when initializing type '" ++ l ++ "' using type '" ++ r ++ "'"))

/-- Translation of `runInitializerChecks`: a scalar initialized by a
list of more than one element, a function initialized at all, or an
array initialized by a single expression are rejected (error strings
as spelled in the source). -/
def runInitializerChecks (dataType : DataType) (initializer : Initializer) : Except Err Unit :=
  if isScalarDataType dataType then
    match initializer with
    | .list vals =>
        if 1 < vals.length then .error (.processing "excess elements in scalar intializer") else .ok ()
    | _ => .ok ()
  else
    match dataType, initializer with
    | .function _ _, _ => .error (.processing "a function cannot be initialized like a variable")
    | .array _ _ _, .single _ => .error (.processing "invalid intializer for aggregate type")
    | _, _ => .ok ()

/-- The `while (firstInitializer.type === "InitializerList")` peeling
loop of the local helper's scalar case: an empty nested list means
zero-fill (`none`), a nested list of more than one element is an excess
error, otherwise the loop descends into the only element until a single
expression is found. -/
def peelScalarInitializerLocal : Initializer → Except Err (Option Expr)
  | .single v => .ok (some v)
  | .list .nil => .ok none
  | .list (.cons f .nil) => peelScalarInitializerLocal f
  | .list (.cons _ (.cons _ _)) => .error (.processing "excess elements in initializer")

/-- Appends one memory store for the current offset and advances
`currOffset` by the scalar size, as the push/increment pairs of the
source do. -/
def pushStoreRaw (st : LState) (scalarDataType : ScalarCDataType) (value : ExpressionP) (sizeToAdd : Int) : LState :=
  { st with
    stores := st.stores ++ [⟨createMemoryOffsetIntegerConstant st.currOffset, value, scalarDataType⟩],
    currOffset := st.currOffset + sizeToAdd }

/-- The `exprs[0]` read of the source (an out-of-range read yields
`undefined`). -/
def headExpr (w : ExpressionWrapperP) : ExpressionP :=
  match w.exprs with
  | e :: _ => e
  | [] => .undefinedValue

/-- The indexed loop that stores each unpacked primary of a struct-typed
expression (`processedExpr.exprs[i]` against `unpackedStruct[i]`),
advancing `currOffset` by each scalar's size. -/
def pushUnpackedStores : List PrimaryDataTypeMemoryObjectDetails → List ExpressionP → LState → LState
  | [], _, st => st
  | obj :: rest, [], st =>
      pushUnpackedStores rest [] (pushStoreRaw st obj.dataType .undefinedValue (getSizeOfScalarDataType obj.dataType))
  | obj :: rest, e :: es, st =>
      pushUnpackedStores rest es (pushStoreRaw st obj.dataType e (getSizeOfScalarDataType obj.dataType))

/-- The assign-check data type used for a struct-self-pointer position:
a pointer to `structBeingFilled` (reading it while still `undefined`
would fault in the source). -/
def selfPointerCheckType (st : LState) : Except Err DataType :=
  match st.structBeingFilled with
  | some s => .ok (createStructSelfPointerDataType s)
  | none => .error (.internal "TypeError")

/-- The scalar case of the local initializer helper (the
`primary | pointer | enum | struct self pointer` branch): a single
initializer is processed, checked for assignability and stored; a list
initializer either zero-fills (cursor past the end, or an empty nested
list), rejects nested lists with excess elements, or stores the peeled
single expression, advancing the cursor by one. -/
def helperScalar (scalarDataType : ScalarCDataType) (checkType : LState → Except Err DataType)
    (sizeToAdd : Int) (zeroExpression : ExpressionP)
    (initializer : Initializer) (offset : Nat) (st : LState) : Except Err (Nat × LState) :=
  match initializer with
  | .single v => do
      let processedExpr ← processExpression v
      let ct ← checkType st
      checkIntializerExpressionAssignability ct processedExpr
      .ok (offset, pushStoreRaw st scalarDataType (headExpr processedExpr) sizeToAdd)
  | .list vals =>
      if vals.length ≤ offset then
        .ok (offset, pushStoreRaw st scalarDataType zeroExpression sizeToAdd)
      else
        match vals.get? offset with
        | none => .error (.internal "TypeError")
        | some firstInitializer => do
            let peeled ← peelScalarInitializerLocal firstInitializer
            match peeled with
            | none =>
                .ok (offset + 1, pushStoreRaw st scalarDataType zeroExpression sizeToAdd)
            | some v => do
                let processedExpr ← processExpression v
                let ct ← checkType st
                checkIntializerExpressionAssignability ct processedExpr
                .ok (offset + 1, pushStoreRaw st scalarDataType (headExpr processedExpr) sizeToAdd)

/-- The zero value stored for an uninitialized scalar position: floats
get a float zero of their own type, pointers and the self-pointer the
pointer-sized integer zero, enums the enum integer type, other primaries
their own integer type. -/
def zeroExpressionFor : ScalarCDataType → ExpressionP
  | .pointer => .IntegerConstant 0 POINTER_TYPE
  | .primary p =>
      if isFloatType p then .FloatConstant 0 p else .IntegerConstant 0 p

mutual
/-- Translation of the recursive `helper` closure of
`unpackLocalVariableInitializerAccordingToDataType`.  Scalar kinds
(primary, pointer, enum; the struct-self-pointer form is dispatched by
the field loop) share the scalar machinery; arrays loop over the
evaluated element count, handing whole-struct expressions, nested lists
(with the excess check of `helperWithExcessInitializerCheck` applied to
them) or same-level elements appropriately; structs either consume one
struct-typed expression or iterate their fields; element kinds matched
by no branch of the source (enum elements, `void`, a `function` type at
top level) leave the state unchanged. -/
def localHelper : DataType → Initializer → Nat → LState → Except Err (Nat × LState)
  | .primary p c, initializer, offset, st =>
      helperScalar (.primary p) (fun _ => .ok (.primary p c))
        (getSizeOfScalarDataType (.primary p)) (zeroExpressionFor (.primary p)) initializer offset st
  | .pointer pt c, initializer, offset, st =>
      helperScalar .pointer (fun _ => .ok (.pointer pt c))
        (getSizeOfScalarDataType .pointer) (zeroExpressionFor .pointer) initializer offset st
  | .enum tag, initializer, offset, st =>
      helperScalar (.primary ENUM_DATA_TYPE) (fun _ => .ok (.enum tag))
        (getSizeOfScalarDataType (.primary ENUM_DATA_TYPE)) (zeroExpressionFor (.primary ENUM_DATA_TYPE))
        initializer offset st
  | .array elementDataType numElements _, initializer, offset, st =>
      match initializer with
      | .single _ => .error (.processing "invalid initializer for aggregate type")
      | .list vals => do
          let numElementsConstant ← evaluateCompileTimeExpression numElements
          repeatM numElementsConstant.valueOf.toNat
            (fun p =>
              match elementDataType with
              | .pointer _ _ => localHelper elementDataType (.list vals) p.1 p.2
              | .primary _ _ => localHelper elementDataType (.list vals) p.1 p.2
              | .struct _ _ =>
                  (match (if p.1 < vals.length then vals.get? p.1 else none) with
                   | some (.single v) => do
                       let processedExpr ← processExpression v
                       (match processedExpr.originalDataType with
                        | .struct _ _ => do
                            checkIntializerExpressionAssignability elementDataType processedExpr
                            let unpackedStruct ← unpackDataType elementDataType
                            .ok (p.1 + 1, pushUnpackedStores unpackedStruct processedExpr.exprs p.2)
                        | _ =>
                            -- the special branch did not fire: generic handling
                            if vals.length ≤ p.1 then localHelper elementDataType (.list vals) p.1 p.2
                            else
                              match vals.get? p.1 with
                              | some (.list sub) => do
                                  let (fin, st') ← localHelper elementDataType (.list sub) 0 p.2
                                  if fin < sub.length then .error (.processing "excess elements in initializer")
                                  else .ok (p.1 + 1, st')
                              | _ => localHelper elementDataType (.list vals) p.1 p.2)
                   | _ =>
                       if vals.length ≤ p.1 then localHelper elementDataType (.list vals) p.1 p.2
                       else
                         match vals.get? p.1 with
                         | some (.list sub) => do
                             let (fin, st') ← localHelper elementDataType (.list sub) 0 p.2
                             if fin < sub.length then .error (.processing "excess elements in initializer")
                             else .ok (p.1 + 1, st')
                         | _ => localHelper elementDataType (.list vals) p.1 p.2)
              | .array _ _ _ =>
                  if vals.length ≤ p.1 then localHelper elementDataType (.list vals) p.1 p.2
                  else
                    (match vals.get? p.1 with
                     | some (.list sub) => do
                         let (fin, st') ← localHelper elementDataType (.list sub) 0 p.2
                         if fin < sub.length then .error (.processing "excess elements in initializer")
                         else .ok (p.1 + 1, st')
                     | _ => localHelper elementDataType (.list vals) p.1 p.2)
              | .function _ _ => .error (.processing "cannot have array of functions")
              | _ => .ok p)
            (offset, st)
  | .struct tag fields, initializer, offset, st =>
      (match initializer with
       | .single v => do
           let processedExpr ← processExpression v
           checkIntializerExpressionAssignability (.struct tag fields) processedExpr
           let unpackedStruct ← unpackDataType (.struct tag fields)
           .ok (offset, pushUnpackedStores unpackedStruct processedExpr.exprs st)
       | .list vals =>
           localFieldsHelper fields vals offset
             { st with structBeingFilled := some (.struct tag fields) })
  | .function _ _, _, offset, st => .ok (offset, st)
  | .void, _, offset, st => .ok (offset, st)

/-- The `for (const field of dataType.fields)` loop of the local
helper's struct case.  The source reads `initializer.values[offset].type`
without a bounds check, so a cursor past the end of the list faults (a
JavaScript `TypeError`); a single element is consumed at the same list
level, a nested list recursion gets a fresh cursor followed by the
excess-elements check. -/
def localFieldsHelper : FieldList → InitializerList → Nat → LState → Except Err (Nat × LState)
  | .nil, _, offset, st => .ok (offset, st)
  | .cons f rest, vals, offset, st => do
      let next ←
        (match vals.get? offset with
         | none => .error (.internal "TypeError")
         | some (.single _) =>
             (match f with
              | .field _ d => localHelper d (.list vals) offset st
              | .selfPointer _ =>
                  helperScalar .pointer selfPointerCheckType
                    (getSizeOfScalarDataType .pointer) (zeroExpressionFor .pointer) (.list vals) offset st)
         | some (.list sub) => do
             let (fin, st') ←
               (match f with
                | .field _ d => localHelper d (.list sub) 0 st
                | .selfPointer _ =>
                    helperScalar .pointer selfPointerCheckType
                      (getSizeOfScalarDataType .pointer) (zeroExpressionFor .pointer) (.list sub) 0 st)
             if fin < sub.length then .error (.processing "excess elements in initializer")
             else .ok (offset + 1, st'))
      localFieldsHelper rest vals next.1 next.2
end

/-- Translation of `helperWithExcessInitializerCheck`: runs the helper
with a fresh cursor and raises the excess-elements error when the
initializer is a list whose elements were not all consumed. -/
def helperWithExcessInitializerCheck (dataType : DataType) (initializer : Initializer) (st : LState) : Except Err LState := do
  let (finalOffset, st') ← localHelper dataType initializer 0 st
  match initializer with
  | .list vals =>
      if finalOffset < vals.length then .error (.processing "excess elements in initializer")
      else .ok st'
  | _ => .ok st'

/-- Translation of `unpackLocalVariableInitializerAccordingToDataType`:
runs the basic initializer checks, then the recursive helper with the
top-level excess check, starting from the variable's frame offset, and
returns the accumulated memory stores. -/
def unpackLocalVariableInitializerAccordingToDataType (dataType : DataType) (variableOffset : Int) (initializer : Initializer) : Except Err (List MemoryStore) := do
  runInitializerChecks dataType initializer
  let st ← helperWithExcessInitializerCheck dataType initializer ⟨variableOffset, [], none⟩
  .ok st.stores

/-- A base-16 digit (lower case). -/
def hexDigit : Nat → String
  | 0 => "0" | 1 => "1" | 2 => "2" | 3 => "3" | 4 => "4"
  | 5 => "5" | 6 => "6" | 7 => "7" | 8 => "8" | 9 => "9"
  | 10 => "a" | 11 => "b" | 12 => "c" | 13 => "d" | 14 => "e"
  | _ => "f"

/-- One byte rendered as `\XX` (two base-16 digits), the data-segment
byte encoding described by the interface documentation. -/
def byteToEscapedHex (b : Nat) : String :=
  "\\" ++ hexDigit (b / 16 % 16) ++ hexDigit (b % 16)

/-- Little-endian rendering of `numBytes` bytes of a natural number. -/
def natBytesLE : Nat → Nat → String
  | 0, _ => ""
  | n + 1, v => byteToEscapedHex (v % 256) ++ natBytesLE n (v / 256)

/-- Modelled from the spec (§4.4, §6; `convertConstantToByteStr` is not
part of the available source): a constant is encoded little-endian in
as many bytes as the target scalar type occupies, reduced to the two's
complement of that width.  The opaque integer payload of a float
constant is encoded the same way; no claim touches float encodings. -/
def convertConstantToByteStr (c : Constant) (scalarDataType : ScalarCDataType) : String :=
  let numBytes := (getSizeOfScalarDataType scalarDataType).toNat
  natBytesLE numBytes ((c.valueOf % ((2 : Int) ^ (8 * numBytes))).toNat)

/-- The byte string `\00` repeated `n` times. -/
def zeroByteStr : Nat → String
  | 0 => ""
  | n + 1 => "\\00" ++ zeroByteStr n

/-- Modelled from the spec (§4.4: aggregate zeroing defers to scalar
zeroing, a `null` initializer produces a fully-zeroed byte string of
the declared size; the source's spelling of the name is kept): a
zero-filled byte string covering the data type's size. -/
def getZeroInializerByteStrForDataType (dataType : DataType) : Except Err String := do
  let sz ← getDataTypeSize dataType
  .ok (zeroByteStr sz.toNat)

/-- The peeling loop of the data-segment helper's scalar case: unlike
the local variant it performs no excess check on nested lists — it
always descends into `values[0]`; an empty nested list means
zero-fill. -/
def peelScalarInitializerDataSegment : Initializer → Option Expr
  | .single v => some v
  | .list .nil => none
  | .list (.cons f _) => peelScalarInitializerDataSegment f

/-- The scalar case of the data-segment helper: a single initializer is
evaluated at compile time inside a `try` whose `catch` converts any
`ProcessingError` into the not-compile-time-constant error; in the list
case the evaluation of the peeled expression is *not* wrapped, so the
evaluator's own error propagates.  The resulting constant's little-endian
bytes are appended. -/
def dsHelperScalar (dataType : DataType) (scalarDataType : ScalarCDataType)
    (initializer : Initializer) (offset : Nat) (byteStr : String) : Except Err (Nat × String) :=
  match initializer with
  | .single v =>
      (match evaluateCompileTimeExpression v with
       | .ok processedConstant =>
           .ok (offset, byteStr ++ convertConstantToByteStr processedConstant scalarDataType)
       | .error (.processing _) =>
           .error (.processing "initializer element is not compile-time constant")
       | .error e => .error e)
  | .list vals =>
      if vals.length ≤ offset then do
        let z ← getZeroInializerByteStrForDataType dataType
        .ok (offset, byteStr ++ z)
      else
        match vals.get? offset with
        | none => .error (.internal "TypeError")
        | some firstInitializer =>
            match peelScalarInitializerDataSegment firstInitializer with
            | none => do
                let z ← getZeroInializerByteStrForDataType dataType
                .ok (offset + 1, byteStr ++ z)
            | some v => do
                let processedConstant ← evaluateCompileTimeExpression v
                .ok (offset + 1, byteStr ++ convertConstantToByteStr processedConstant scalarDataType)

mutual
/-- Translation of the recursive `helper` closure of
`unpackDataSegmentInitializerAccordingToDataType`: like the local
variant it walks the data type and the initializer in lock-step, but it
accumulates a byte string, requires compile-time constants, applies no
assignability checks, and never checks for excess elements (nested
aggregate lists are recursed into with a fresh cursor whose final value
is discarded).  Element or field kinds matched by no branch of the
source (enum elements, enum fields, the struct-self-pointer marker,
`void`) contribute nothing. -/
def dataSegmentHelper : DataType → Initializer → Nat → String → Except Err (Nat × String)
  | .primary p c, init, off, bs => dsHelperScalar (.primary p c) (.primary p) init off bs
  | .pointer pt c, init, off, bs => dsHelperScalar (.pointer pt c) .pointer init off bs
  | .enum tag, init, off, bs => dsHelperScalar (.enum tag) (.primary ENUM_DATA_TYPE) init off bs
  | .array elementDataType numElements _, init, off, bs =>
      (match init with
       | .single _ => .error (.processing "invalid initializer for aggregate type")
       | .list vals => do
          let numElementsConstant ← evaluateCompileTimeExpression numElements
          repeatM numElementsConstant.valueOf.toNat
            (fun p =>
              match elementDataType with
              | .pointer _ _ => dataSegmentHelper elementDataType (.list vals) p.1 p.2
              | .primary _ _ => dataSegmentHelper elementDataType (.list vals) p.1 p.2
              | .array _ _ _ =>
                  if vals.length ≤ p.1 then dataSegmentHelper elementDataType (.list vals) p.1 p.2
                  else (match vals.get? p.1 with
                        | some (.list sub) => do
                            let r ← dataSegmentHelper elementDataType (.list sub) 0 p.2
                            .ok (p.1 + 1, r.2)
                        | _ => dataSegmentHelper elementDataType (.list vals) p.1 p.2)
              | .struct _ _ =>
                  if vals.length ≤ p.1 then dataSegmentHelper elementDataType (.list vals) p.1 p.2
                  else (match vals.get? p.1 with
                        | some (.list sub) => do
                            let r ← dataSegmentHelper elementDataType (.list sub) 0 p.2
                            .ok (p.1 + 1, r.2)
                        | _ => dataSegmentHelper elementDataType (.list vals) p.1 p.2)
              | .function _ _ => .error (.processing "cannot have array of functions")
              | _ => .ok p)
            (off, bs))
  | .struct _ fields, init, off, bs =>
      (match init with
       | .single _ => .error (.processing "invalid initializer for aggregate type")
       | .list vals => dataSegmentFieldsHelper fields vals off bs)
  | .function _ _, _, _, _ => .error (.processing "cannot initialize function type")
  | .void, _, off, bs => .ok (off, bs)

/-- The `for (const field of dataType.fields)` loop of the data-segment
helper's struct case. -/
def dataSegmentFieldsHelper : FieldList → InitializerList → Nat → String → Except Err (Nat × String)
  | .nil, _, off, bs => .ok (off, bs)
  | .cons f rest, vals, off, bs => do
      let next ←
        (match f with
         | .field _ d =>
             (match d with
              | .pointer _ _ => dataSegmentHelper d (.list vals) off bs
              | .primary _ _ => dataSegmentHelper d (.list vals) off bs
              | .array _ _ _ =>
                  if vals.length ≤ off then dataSegmentHelper d (.list vals) off bs
                  else (match vals.get? off with
                        | some (.list sub) => do
                            let r ← dataSegmentHelper d (.list sub) 0 bs
                            .ok (off + 1, r.2)
                        | _ => dataSegmentHelper d (.list vals) off bs)
              | .struct _ _ =>
                  if vals.length ≤ off then dataSegmentHelper d (.list vals) off bs
                  else (match vals.get? off with
                        | some (.list sub) => do
                            let r ← dataSegmentHelper d (.list sub) 0 bs
                            .ok (off + 1, r.2)
                        | _ => dataSegmentHelper d (.list vals) off bs)
              | .function _ _ => .error (.processing "function is not valid field of struct")
              | _ => .ok (off, bs))
         | .selfPointer _ => .ok (off, bs))
      dataSegmentFieldsHelper rest vals next.1 next.2
end

/-- Translation of `unpackDataSegmentInitializerAccordingToDataType`: a
`null` initializer produces the zero byte string of the declared size;
otherwise the helper runs with a fresh cursor and its final cursor is
discarded — the data-segment variant performs no excess-elements
check. -/
def unpackDataSegmentInitializerAccordingToDataType (dataType : DataType) (initalizer : Option Initializer) : Except Err String :=
  match initalizer with
  | none => getZeroInializerByteStrForDataType dataType
  | some i => do
      let r ← dataSegmentHelper dataType i 0 ""
      .ok r.2

/-- Modelled from the spec (§3.2): the storage class of a declaration —
no specifier, or `static`.  The `typedef` specifier is not exercised by
any claim and is omitted. -/
inductive StorageClass where
  | noSpecifier
  | staticSpecifier
deriving DecidableEq, Repr

/-- Modelled from the spec (§3.2): the symbol-table entry kinds a
block-scope variable declaration can create, plus enumerator entries.
The function entry's `functionIndex` and the typedef/tag kinds are not
read by any claim and are omitted. -/
inductive SymbolEntry where
  | localVariable (dataType : DataType) (offset : Int)
  | dataSegmentVariable (dataType : DataType) (offset : Int)
  | functionEntry (dataType : DataType)
  | enumeratorEntry (value : Int)

/-- Modelled from the spec (§3.3, §4.3): the symbol table state the
claims observe — the entries of the current scope, the downward-packing
local allocator and the data-segment accumulator (absolute offset plus
appended byte string).  Scope nesting is not exercised by any claim and
is collapsed to one scope. -/
structure SymbolTable where
  entries : List (String × SymbolEntry)
  nextLocalOffset : Int
  dataSegmentOffset : Int
  dataSegmentBytes : String

/-- Modelled from the spec (§4.3): `hasSymbol`. -/
def hasSymbol (st : SymbolTable) (name : String) : Bool :=
  st.entries.any fun e => e.1 == name

/-- A declaration found inside a function body: a variable (or
function) declaration, or an enum declaration with its members and
optional explicit values. -/
inductive Declaration where
  | varDecl (name : String) (dataType : DataType) (storageClass : StorageClass) (initializer : Option Initializer)
  | enumDeclaration (tag : Option String) (members : List (String × Option Expr))

/-- Modelled from the spec (§4.3): `SymbolTable.addEntry` for a variable
declaration.  A redeclared name is an error; a function-typed
declaration creates a function entry; a `static` declaration creates a
data-segment entry — `allocateDataSegment` returns the current absolute
offset and appends the initializer's byte string (tentative zero bytes
for a missing initializer) — and any other declaration creates a local
variable whose negative frame offset comes from `allocateLocal`
(locals pack downward). -/
def addEntry (decl : Declaration) (st : SymbolTable) : Except Err (SymbolEntry × SymbolTable) :=
  match decl with
  | .enumDeclaration _ _ => .error (.internal "addEntry: not a variable declaration")
  | .varDecl name dataType storageClass initializer =>
      if hasSymbol st name then .error (.processing ("redeclaration of '" ++ name ++ "'"))
      else
        match dataType with
        | .function r ps =>
            let entry := SymbolEntry.functionEntry (.function r ps)
            .ok (entry, { st with entries := st.entries ++ [(name, entry)] })
        | _ =>
            match storageClass with
            | .staticSpecifier => do
                let bytes ← unpackDataSegmentInitializerAccordingToDataType dataType initializer
                let sz ← getDataTypeSize dataType
                let entry := SymbolEntry.dataSegmentVariable dataType st.dataSegmentOffset
                .ok (entry,
                     { st with
                       entries := st.entries ++ [(name, entry)],
                       dataSegmentOffset := st.dataSegmentOffset + sz,
                       dataSegmentBytes := st.dataSegmentBytes ++ bytes })
            | .noSpecifier => do
                let sz ← getDataTypeSize dataType
                let offset := st.nextLocalOffset - sz
                let entry := SymbolEntry.localVariable dataType offset
                .ok (entry,
                     { st with
                       entries := st.entries ++ [(name, entry)],
                       nextLocalOffset := offset })

/-- The loop of `processEnumDeclaration` over the enum's members:
each enumerator gets its explicit (compile-time evaluated) value or the
successor of the previous one, starting from 0. -/
def enumMembersLoop : List (String × Option Expr) → Int → SymbolTable → Except Err SymbolTable
  | [], _, st => .ok st
  | (name, valExpr) :: rest, nextVal, st => do
      let v ← (match valExpr with
               | some e => do
                   let c ← evaluateCompileTimeExpression e
                   pure c.valueOf
               | none => pure nextVal)
      if hasSymbol st name then .error (.processing ("redeclaration of '" ++ name ++ "'"))
      else enumMembersLoop rest (v + 1) { st with entries := st.entries ++ [(name, .enumeratorEntry v)] }

/-- Modelled from the spec (§3.2, §4.3): `processEnumDeclaration` adds
one enumerator entry per member and produces no statements (tag
registration is not exercised by any claim). -/
def processEnumDeclaration (declaration : Declaration) (st : SymbolTable) : Except Err SymbolTable :=
  match declaration with
  | .enumDeclaration _ members => enumMembersLoop members 0 st
  | _ => .error (.internal "processEnumDeclaration: not an enum declaration")

/-- The per-function record whose `sizeOfLocals` counter
`processLocalDeclaration` updates. -/
structure FunctionDefinitionP where
  sizeOfLocals : Int
deriving DecidableEq, Repr

/-- Translation of `processLocalDeclaration`: adds the declaration's
symbol-table entry; a function or data-segment (static) entry yields no
statements; a local-variable entry adds the declared type's size to the
enclosing function's `sizeOfLocals` (when there is one) and, when an
initializer is present, returns the memory stores produced by the local
initializer unpacker; an enum declaration is processed for its
enumerators and yields no statements. -/
def processLocalDeclaration (declaration : Declaration) (symbolTable : SymbolTable)
    (enclosingFunc : Option FunctionDefinitionP) :
    Except Err (List MemoryStore × SymbolTable × Option FunctionDefinitionP) :=
  match declaration with
  | .varDecl _ dataType _ initializer => do
      let r ← addEntry declaration symbolTable
      match r.1 with
      | .functionEntry _ => .ok ([], r.2, enclosingFunc)
      | .dataSegmentVariable _ _ => .ok ([], r.2, enclosingFunc)
      | .enumeratorEntry _ => .error (.internal "processLocalDeclaration: unexpected entry")
      | .localVariable entryDataType entryOffset => do
          let enclosing' ←
            (match enclosingFunc with
             | some f => do
                 let sz ← getDataTypeSize dataType
                 pure (some (FunctionDefinitionP.mk (f.sizeOfLocals + sz)))
             | none => pure none)
          match initializer with
          | some i => do
              let stores ← unpackLocalVariableInitializerAccordingToDataType entryDataType entryOffset i
              .ok (stores, r.2, enclosing')
          | none => .ok ([], r.2, enclosing')
  | .enumDeclaration _ _ => do
      let st' ← processEnumDeclaration declaration symbolTable
      .ok ([], st', enclosingFunc)

mutual
/-- Specification-side definition: the data type with every `const`
qualifier removed, at every position.  Used to state what "ignoring
qualifiers" would mean. -/
def stripConst : DataType → DataType
  | .primary p _ => .primary p false
  | .pointer pt _ => .pointer (stripConst pt) false
  | .array e n _ => .array (stripConst e) n false
  | .struct tag fs => .struct tag (stripConstFields fs)
  | .enum tag => .enum tag
  | .function r ps => .function (stripConst r) (stripConstParams ps)
  | .void => .void

/-- `stripConst` on a struct field. -/
def stripConstField : StructField → StructField
  | .field tag d => .field tag (stripConst d)
  | .selfPointer tag => .selfPointer tag

/-- `stripConst` on a field list. -/
def stripConstFields : FieldList → FieldList
  | .nil => .nil
  | .cons f rest => .cons (stripConstField f) (stripConstFields rest)

/-- `stripConst` on a parameter list. -/
def stripConstParams : ParamList → ParamList
  | .nil => .nil
  | .cons p rest => .cons (stripConst p) (stripConstParams rest)
end

mutual
/-- Specification-side predicate: every array `numElements` expression
occurring anywhere in the data type evaluates successfully at compile
time.  On such types `checkDataTypeCompatibility` cannot fail. -/
def arraySizesEvaluable : DataType → Bool
  | .primary _ _ => true
  | .pointer pt _ => arraySizesEvaluable pt
  | .array e n _ =>
      (match evaluateCompileTimeExpression n with
       | .ok _ => true
       | .error _ => false) && arraySizesEvaluable e
  | .struct _ fs => fieldsArraySizesEvaluable fs
  | .enum _ => true
  | .function r ps => arraySizesEvaluable r && paramsArraySizesEvaluable ps
  | .void => true

/-- `arraySizesEvaluable` on a struct field. -/
def fieldArraySizesEvaluable : StructField → Bool
  | .field _ d => arraySizesEvaluable d
  | .selfPointer _ => true

/-- `arraySizesEvaluable` on a field list. -/
def fieldsArraySizesEvaluable : FieldList → Bool
  | .nil => true
  | .cons f rest => fieldArraySizesEvaluable f && fieldsArraySizesEvaluable rest

/-- `arraySizesEvaluable` on a parameter list. -/
def paramsArraySizesEvaluable : ParamList → Bool
  | .nil => true
  | .cons p rest => arraySizesEvaluable p && paramsArraySizesEvaluable rest
end

mutual
/-- Specification-side predicate delimiting the types on which both
`getDataTypeSize` and `unpackDataType` succeed, as the size-consistency
claim words it: primaries, pointers, enums, arrays with a constant
non-negative integer element count, and structs of such types (a
struct-self-pointer field is always fine); function and void types are
excluded. -/
def sizeWellFormed : DataType → Bool
  | .primary _ _ => true
  | .pointer _ _ => true
  | .array e n _ =>
      (match evaluateCompileTimeExpression n with
       | .ok (.IntegerConstant v _) => decide (0 ≤ v)
       | _ => false) && sizeWellFormed e
  | .struct _ fs => fieldsSizeWellFormed fs
  | .enum _ => true
  | .function _ _ => false
  | .void => false

/-- `sizeWellFormed` on a struct field. -/
def fieldSizeWellFormed : StructField → Bool
  | .field _ d => sizeWellFormed d
  | .selfPointer _ => true

/-- `sizeWellFormed` on a field list. -/
def fieldsSizeWellFormed : FieldList → Bool
  | .nil => true
  | .cons f rest => fieldSizeWellFormed f && fieldsSizeWellFormed rest
end

/-- The sum of the scalar sizes of a list of unpacked primary memory
objects. -/
def sumScalarSizes : List PrimaryDataTypeMemoryObjectDetails → Int
  | [] => 0
  | o :: rest => getSizeOfScalarDataType o.dataType + sumScalarSizes rest

/-- Specification-side definition of the parameter layout the
function-details claim describes: for each parameter in declaration
order, its unpacked primary scalars in reverse of their layout order,
each offset equal to the parameter's negative base offset (the running
negated total of parameter sizes) plus the primary's own offset within
the parameter. -/
def specParameterLayout : ParamList → Int → Except Err (List PrimaryDataTypeMemoryObjectDetails)
  | .nil, _ => .ok []
  | .cons p rest, negBase => do
      let sz ← getDataTypeSize p
      let ups ← unpackDataType p
      let tail ← specParameterLayout rest (negBase - sz)
      .ok (((ups.map fun o => ⟨o.dataType, (negBase - sz) + o.offset⟩).reverse) ++ tail)

/-- The total size of a parameter list. -/
def paramSizesSum : ParamList → Except Err Int
  | .nil => .ok 0
  | .cons p rest => do
      let sz ← getDataTypeSize p
      let s ← paramSizesSum rest
      .ok (sz + s)

/-- True for the entry kinds on which `processLocalDeclaration` returns
no statements: function entries and data-segment (static) entries. -/
def SymbolEntry.isFunctionOrDataSegment : SymbolEntry → Bool
  | .functionEntry _ => true
  | .dataSegmentVariable _ _ => true
  | _ => false

/-- True exactly for local-variable entries. -/
def SymbolEntry.isLocalVariable : SymbolEntry → Bool
  | .localVariable _ _ => true
  | _ => false

/-- The initializer attached to a declaration (none for enum
declarations). -/
def Declaration.initializerOf : Declaration → Option Initializer
  | .varDecl _ _ _ i => i
  | .enumDeclaration _ _ => none

/-! ## Theorems -/

/-- C6: for every data type `T`, `checkAssignability` accepts an
assignment to a pointer-to-`T` lvalue when the assigned expression is a
null pointer constant (an integer constant expression equal to 0). -/
theorem c6_null_pointer_assignable (pointeeType : DataType) (isConst : Bool)
    (expr : ExpressionWrapperP) (h : isNullPointerConstant expr = true) :
    checkAssignability (.pointer pointeeType isConst) expr = .ok true := by
  simp [checkAssignability, isPointer, h]

/-- Witness for C6 at a concrete input: the integer constant 0 assigned
to a `const double *` lvalue. -/
theorem c6_witness :
    isNullPointerConstant ⟨.primary .signedInt false, [.IntegerConstant 0 .signedInt]⟩ = true ∧
    checkAssignability (.pointer (.primary .double false) true)
      ⟨.primary .signedInt false, [.IntegerConstant 0 .signedInt]⟩ = .ok true :=
  ⟨rfl, c6_null_pointer_assignable (.primary .double false) true
          ⟨.primary .signedInt false, [.IntegerConstant 0 .signedInt]⟩ rfl⟩

/-- C7 counterexample: a pointer to `const signed int` (a
pointer-to-const value) is accepted for a `void *` lvalue, whose pointee
carries no `const` — so the claim's "a pointer-to-const value is never
assignable to a pointer-to-non-const lvalue" fails as stated. -/
theorem c7_const_pointee_counterexample :
    checkAssignabilityOfPointers (.pointer .void false) (.pointer (.primary .signedInt true) false) = .ok true ∧
    DataType.isConstOf (.primary .signedInt true) = true ∧
    DataType.isConstOf .void = false := ⟨rfl, rfl, rfl⟩

/-- C7 (amended): pointer-to-pointer assignment is permitted iff either
side is a void pointer, or the pointees are compatible under
`ignoreQualifiers = true` and the left pointee carries `const` whenever
the right pointee does; and when *neither* side is a void pointer, a
const right pointee with a non-const left pointee is always rejected. -/
theorem c7_pointer_assignability (lp rp : DataType) (lc rc : Bool) :
    (checkAssignabilityOfPointers (.pointer lp lc) (.pointer rp rc) = .ok true ↔
      (lp = .void ∨ rp = .void ∨
        (checkDataTypeCompatibility lp rp true = .ok true ∧
          (rp.isConstOf = true → lp.isConstOf = true)))) ∧
    (isVoidPointer (.pointer lp lc) = false → isVoidPointer (.pointer rp rc) = false →
      rp.isConstOf = true → lp.isConstOf = false →
      checkAssignabilityOfPointers (.pointer lp lc) (.pointer rp rc) = .ok false) := by
  constructor
  · by_cases hlp : lp = .void
    · subst hlp
      simp [checkAssignabilityOfPointers, isVoidPointer]
    · by_cases hrp : rp = .void
      · subst hrp
        simp [checkAssignabilityOfPointers, isVoidPointer]
      · have h1 : isVoidPointer (.pointer lp lc) = false := by
          cases lp <;> simp_all [isVoidPointer]
        have h2 : isVoidPointer (.pointer rp rc) = false := by
          cases rp <;> simp_all [isVoidPointer]
        simp [checkAssignabilityOfPointers, h1, h2, hlp, hrp]
        cases hc1 : lp.isConstOf <;> cases hc2 : rp.isConstOf <;> simp
  · intro h1 h2 h3 h4
    simp [checkAssignabilityOfPointers, h1, h2, h3, h4]

/-- Witness for C7 at a concrete input: `int *` lvalue, `const int *`
value, neither a void pointer — rejected. -/
theorem c7_witness :
    checkAssignabilityOfPointers (.pointer (.primary .signedInt false) false)
      (.pointer (.primary .signedInt true) false) = .ok false :=
  (c7_pointer_assignability (.primary .signedInt false) (.primary .signedInt true) false false).2
    rfl rfl rfl rfl

/-- C9: evaluating `unpackDataType` on `struct L { struct L *next; int x; }`
(a struct-self-pointer field followed by a further field) yields the
second primary at offset 8, although the sum of the sizes of the
elements before it is 4 — the self-pointer case advances the running
offset by the whole struct's size instead of the pointer size. -/
theorem c9_self_pointer_offset_bug :
    unpackDataType (.struct (some "L")
        (.cons (.selfPointer "next") (.cons (.field "x" (.primary .signedInt false)) .nil))) =
      .ok [⟨.pointer, 0⟩, ⟨.primary .signedInt, 8⟩] ∧
    sumScalarSizes [⟨.pointer, 0⟩] = 4 := ⟨rfl, rfl⟩

/-- C5: on a data-segment scalar whose single initializer expression is
not a compile-time constant, the unpacker raises "initializer element is
not compile-time constant" — not the "initializer element is not
constant" message the test suite asserts. -/
theorem c5_wrong_error_message :
    unpackDataSegmentInitializerAccordingToDataType (.primary .signedInt false)
        (some (.single (.ident "y"))) =
      .error (.processing "initializer element is not compile-time constant") ∧
    "initializer element is not compile-time constant" ≠ "initializer element is not constant" :=
  ⟨rfl, by decide⟩

/-- C4 counterexample: the data-segment unpacker on a `signed int` with
the initializer list `{1, 2}` consumes only the first element (the
final cursor is 1, short of the list length 2) and returns the byte
string for 1 with no error — no "excess elements in initializer" is
raised by the data-segment variant. -/
theorem c4_dataSegment_no_excess_check :
    unpackDataSegmentInitializerAccordingToDataType (.primary .signedInt false)
        (some (.list (.cons (.single (.intLit 1)) (.cons (.single (.intLit 2)) .nil)))) =
      .ok "\\01\\00\\00\\00" ∧
    dataSegmentHelper (.primary .signedInt false)
        (.list (.cons (.single (.intLit 1)) (.cons (.single (.intLit 2)) .nil))) 0 "" =
      .ok (1, "\\01\\00\\00\\00") := ⟨rfl, rfl⟩

theorem constFlagContra (p : Prop) (x : Bool) : ((p ∧ x = true) ∧ x = false) ↔ False := by
  cases x <;> simp

theorem constFlagContra2 (x : Bool) : (x = true ∧ x = false) ↔ False := by
  cases x <;> simp

mutual
theorem compatRefl : ∀ (t : DataType) (q : Bool), arraySizesEvaluable t = true →
    checkDataTypeCompatibility t t q = .ok true
  | .primary p c, q, _ => by
      simp [checkDataTypeCompatibility, DataType.kindIndex, DataType.isConstOf, constFlagContra, constFlagContra2]
  | .pointer pt c, q, h => by
      have ih := compatRefl pt q (by simpa [arraySizesEvaluable] using h)
      cases pt <;>
        simp_all [checkDataTypeCompatibility, DataType.kindIndex, DataType.isConstOf,
          constFlagContra, constFlagContra2, Bind.bind, Except.bind]
  | .array e n c, q, h => by
      have hsplit : (match evaluateCompileTimeExpression n with
          | .ok _ => true | .error _ => false) = true ∧ arraySizesEvaluable e = true := by
        simpa [arraySizesEvaluable, Bool.and_eq_true] using h
      have ih := compatRefl e q hsplit.2
      have h1 := hsplit.1
      cases heval : evaluateCompileTimeExpression n with
      | error err => rw [heval] at h1; simp at h1
      | ok cst =>
          have hjs : constantJSEq cst cst = true := by cases cst <;> simp [constantJSEq]
          simp_all [checkDataTypeCompatibility, DataType.kindIndex, DataType.isConstOf,
            constFlagContra, constFlagContra2, Bind.bind, Except.bind]
  | .struct t fs, q, h => by
      have ih := fieldsRefl fs q (by simpa [arraySizesEvaluable] using h)
      simp_all [checkDataTypeCompatibility, DataType.kindIndex, DataType.isConstOf]
  | .enum t, q, _ => by
      simp [checkDataTypeCompatibility, DataType.kindIndex, DataType.isConstOf]
  | .function r ps, q, h => by
      have h1 : arraySizesEvaluable r = true ∧ paramsArraySizesEvaluable ps = true := by
        simpa [arraySizesEvaluable, Bool.and_eq_true] using h
      have ihr := compatRefl r q h1.1
      have ihp := paramsRefl ps q h1.2
      cases r <;>
        simp_all [checkDataTypeCompatibility, DataType.kindIndex, DataType.isConstOf,
          constFlagContra, constFlagContra2, Bind.bind, Except.bind]
  | .void, q, _ => by
      simp [checkDataTypeCompatibility, DataType.kindIndex, DataType.isConstOf]

theorem fieldRefl : ∀ (f : StructField) (q : Bool), fieldArraySizesEvaluable f = true →
    checkStructFieldCompatibility f f q = .ok true
  | .selfPointer t, q, _ => by
      simp [checkStructFieldCompatibility]
  | .field t d, q, h => by
      have ih := compatRefl d q (by simpa [fieldArraySizesEvaluable] using h)
      simp [checkStructFieldCompatibility, ih]

theorem fieldsRefl : ∀ (fs : FieldList) (q : Bool), fieldsArraySizesEvaluable fs = true →
    compatFieldsLoop fs fs q = .ok true
  | .nil, q, _ => by rw [compatFieldsLoop]
  | .cons f rest, q, h => by
      have h1 : fieldArraySizesEvaluable f = true ∧ fieldsArraySizesEvaluable rest = true := by
        simpa [fieldsArraySizesEvaluable, Bool.and_eq_true] using h
      have ihf := fieldRefl f q h1.1
      have ihr := fieldsRefl rest q h1.2
      rw [compatFieldsLoop]
      simp [ihf, ihr, Bind.bind, Except.bind]

theorem paramsRefl : ∀ (ps : ParamList) (q : Bool), paramsArraySizesEvaluable ps = true →
    compatParamsLoop ps ps q = .ok true
  | .nil, q, _ => by rw [compatParamsLoop]
  | .cons p rest, q, h => by
      have h1 : arraySizesEvaluable p = true ∧ paramsArraySizesEvaluable rest = true := by
        simpa [paramsArraySizesEvaluable, Bool.and_eq_true] using h
      have ihp := compatRefl p q h1.1
      have ihr := paramsRefl rest q h1.2
      rw [compatParamsLoop]
      simp [ihp, ihr, Bind.bind, Except.bind]
end

theorem compat_pointer_eq (pt pt' : DataType) (c c' q : Bool) :
    checkDataTypeCompatibility (.pointer pt c) (.pointer pt' c') q =
      (if (!q && c && !c') || (c' && !c) then .ok false
       else match pt, pt' with
            | .void, .void => .ok true
            | .void, _ => .ok false
            | _, .void => .ok false
            | _, _ => checkDataTypeCompatibility pt pt' q) := by
  cases pt <;> cases pt' <;>
    simp [checkDataTypeCompatibility, DataType.kindIndex, DataType.isConstOf]

theorem compat_function_eq (r r' : DataType) (ps ps' : ParamList) (q : Bool) :
    checkDataTypeCompatibility (.function r ps) (.function r' ps') q =
      (match r, r' with
       | .void, .void =>
           if !(ps.length == ps'.length) then .ok false
           else compatParamsLoop ps ps' q
       | .void, _ => .ok false
       | _, .void => .ok false
       | _, _ => do
           let c ← checkDataTypeCompatibility r r' q
           if c then
             if !(ps.length == ps'.length) then .ok false
             else compatParamsLoop ps ps' q
           else .ok false) := by
  cases r <;> cases r' <;>
    simp [checkDataTypeCompatibility, DataType.kindIndex, DataType.isConstOf, Bind.bind, Except.bind]

theorem compat_array_eq2 (e e' : DataType) (n n' : Expr) (c c' q : Bool) :
    checkDataTypeCompatibility (.array e n c) (.array e' n' c') q =
      (if (!q && c && !c') || (c' && !c) then .ok false
       else do
         let ca ← evaluateCompileTimeExpression n
         let cb ← evaluateCompileTimeExpression n'
         if constantJSEq ca cb then checkDataTypeCompatibility e e' q else .ok false) := by
  rw [checkDataTypeCompatibility]
  simp [DataType.kindIndex, DataType.isConstOf]

theorem evalError_fixed (n : Expr) (e : Err) (h : evaluateCompileTimeExpression n = .error e) :
    e = .processing "expression is not a compile-time constant" := by
  cases n <;> simp_all [evaluateCompileTimeExpression]

theorem beqComm {α : Type} [DecidableEq α] (x y : α) : (x == y) = (y == x) := by
  by_cases h : x = y
  · subst h; rfl
  · have h1 : (x == y) = false := beq_eq_false_iff_ne.mpr h
    have h2 : (y == x) = false := beq_eq_false_iff_ne.mpr (Ne.symm h)
    rw [h1, h2]

theorem compat_kind_mismatch (a b : DataType) (q : Bool) (h : a.kindIndex ≠ b.kindIndex) :
    checkDataTypeCompatibility a b q = .ok false := by
  cases a <;> cases b <;> simp_all [checkDataTypeCompatibility, DataType.kindIndex]

theorem compat_primary_eq (p p' : PrimaryCDataType) (c c' q : Bool) :
    checkDataTypeCompatibility (.primary p c) (.primary p' c') q =
      (if (!q && c && !c') || (c' && !c) then .ok false else .ok (p == p')) := by
  rw [checkDataTypeCompatibility]
  simp [DataType.kindIndex, DataType.isConstOf]

theorem compat_struct_eq (t t' : Option String) (fs fs' : FieldList) (q : Bool) :
    checkDataTypeCompatibility (.struct t fs) (.struct t' fs') q =
      (if !(t == t') then .ok false
       else if !(fs.length == fs'.length) then .ok false
       else compatFieldsLoop fs fs' q) := by
  rw [checkDataTypeCompatibility]
  simp [DataType.kindIndex, DataType.isConstOf]

theorem constantJSEq_comm (x y : Constant) : constantJSEq x y = constantJSEq y x := by
  cases x <;> cases y <;> simp [constantJSEq, beqComm]

theorem compat_enum_eq (t t' : Option String) (q : Bool) :
    checkDataTypeCompatibility (.enum t) (.enum t') q = .ok true := by
  rw [checkDataTypeCompatibility]
  simp [DataType.kindIndex, DataType.isConstOf]

mutual
theorem compatSymm (a b : DataType) :
    checkDataTypeCompatibility a b false = checkDataTypeCompatibility b a false := by
  cases a <;> cases b
  case primary.primary p c p' c' =>
    rw [compat_primary_eq, compat_primary_eq]
    cases c <;> cases c' <;> simp [beqComm p p']
  case pointer.pointer pt c pt' c' =>
    have ih := compatSymm pt pt'
    rw [compat_pointer_eq, compat_pointer_eq]
    cases c <;> cases c' <;> cases pt <;> cases pt' <;> simp [ih]
  case array.array e n c e' n' c' =>
    have ih := compatSymm e e'
    rw [compat_array_eq2, compat_array_eq2]
    have hdo :
        (do
          let ca ← evaluateCompileTimeExpression n
          let cb ← evaluateCompileTimeExpression n'
          if constantJSEq ca cb then checkDataTypeCompatibility e e' false else (.ok false : Except Err Bool)) =
        (do
          let ca ← evaluateCompileTimeExpression n'
          let cb ← evaluateCompileTimeExpression n
          if constantJSEq ca cb then checkDataTypeCompatibility e' e false else .ok false) := by
      cases heval1 : evaluateCompileTimeExpression n with
      | error err1 =>
          cases heval2 : evaluateCompileTimeExpression n' with
          | error err2 =>
              obtain rfl := evalError_fixed _ _ heval1
              obtain rfl := evalError_fixed _ _ heval2
              simp [Bind.bind, Except.bind]
          | ok c2 => simp [Bind.bind, Except.bind]
      | ok c1 =>
          cases heval2 : evaluateCompileTimeExpression n' with
          | error err2 => simp [Bind.bind, Except.bind]
          | ok c2 => simp [Bind.bind, Except.bind, constantJSEq_comm c1 c2, ih]
    cases c <;> cases c' <;> simp [hdo]
  case struct.struct t fs t' fs' =>
    rw [compat_struct_eq, compat_struct_eq]
    by_cases ht : t = t'
    · subst ht
      by_cases hl : fs.length = fs'.length
      · have ih := fieldsSymm fs fs' hl
        simp [hl, ih]
      · have hl' : ¬ (fs'.length = fs.length) := fun hh => hl hh.symm
        simp [hl, hl']
    · have ht' : ¬ (t' = t) := fun hh => ht hh.symm
      have hb : (t == t') = false := beq_eq_false_iff_ne.mpr ht
      have hb' : (t' == t) = false := beq_eq_false_iff_ne.mpr ht'
      simp [hb, hb']
  case enum.enum t t' =>
    rw [compat_enum_eq, compat_enum_eq]
  case function.function r ps r' ps' =>
    have ihr := compatSymm r r'
    rw [compat_function_eq, compat_function_eq]
    by_cases hl : ps.length = ps'.length
    · have ihp := paramsSymm ps ps' hl
      cases r <;> cases r' <;> simp [ihr, ihp, hl, Bind.bind, Except.bind]
    · have hl' : ¬ (ps'.length = ps.length) := fun hh => hl hh.symm
      cases r <;> cases r' <;> simp [ihr, hl, hl', Bind.bind, Except.bind]
  case void.void => rfl
  all_goals
    refine (compat_kind_mismatch _ _ _ ?_).trans (compat_kind_mismatch _ _ _ ?_).symm <;>
      simp [DataType.kindIndex]

theorem fieldSymm (f g : StructField) :
    checkStructFieldCompatibility f g false = checkStructFieldCompatibility g f false := by
  cases f with
  | selfPointer ta =>
      cases g with
      | selfPointer tb => simp [checkStructFieldCompatibility, beqComm ta tb]
      | field tb d => simp [checkStructFieldCompatibility, beqComm ta tb]
  | field ta d =>
      cases g with
      | selfPointer tb => simp [checkStructFieldCompatibility, beqComm ta tb]
      | field tb d' =>
          have ih := compatSymm d d'
          simp [checkStructFieldCompatibility, beqComm ta tb, ih]

theorem fieldsSymm (fa fb : FieldList) (h : fa.length = fb.length) :
    compatFieldsLoop fa fb false = compatFieldsLoop fb fa false := by
  cases fa with
  | nil =>
      cases fb with
      | nil => rfl
      | cons g rb => simp [FieldList.length] at h
  | cons f ra =>
      cases fb with
      | nil => simp [FieldList.length] at h
      | cons g rb =>
          have hf := fieldSymm f g
          have hr : ra.length = rb.length := by
            simpa [FieldList.length] using h
          have ih := fieldsSymm ra rb hr
          rw [compatFieldsLoop, compatFieldsLoop]
          simp [hf, ih, Bind.bind, Except.bind]

theorem paramsSymm (pa pb : ParamList) (h : pa.length = pb.length) :
    compatParamsLoop pa pb false = compatParamsLoop pb pa false := by
  cases pa with
  | nil =>
      cases pb with
      | nil => rfl
      | cons g rb => simp [ParamList.length] at h
  | cons p ra =>
      cases pb with
      | nil => simp [ParamList.length] at h
      | cons p' rb =>
          have hp := compatSymm p p'
          have hr : ra.length = rb.length := by
            simpa [ParamList.length] using h
          have ih := paramsSymm ra rb hr
          rw [compatParamsLoop, compatParamsLoop]
          simp [hp, ih, Bind.bind, Except.bind]
end

theorem stripFields_length : ∀ (fs : FieldList), (stripConstFields fs).length = fs.length
  | .nil => rfl
  | .cons f rest => by
      cases f <;> simp [stripConstFields, stripConstField, FieldList.length, stripFields_length rest]

theorem stripParams_length : ∀ (ps : ParamList), (stripConstParams ps).length = ps.length
  | .nil => rfl
  | .cons p rest => by
      simp [stripConstParams, ParamList.length, stripParams_length rest]

mutual
theorem c2Strip (a b : DataType) (hb : stripConst b = b) :
    checkDataTypeCompatibility a b true = checkDataTypeCompatibility (stripConst a) b true := by
  cases a <;> cases b
  case primary.primary p c p' c' =>
    cases c' with
    | true => exfalso; simp [stripConst] at hb
    | false =>
        rw [compat_primary_eq]
        simp only [stripConst]
        rw [compat_primary_eq]
        simp
  case pointer.pointer pt c pt' c' =>
    cases c' with
    | true => exfalso; simp [stripConst] at hb
    | false =>
        have hpt' : stripConst pt' = pt' := by
          simp [stripConst] at hb
          exact hb
        have ih := c2Strip pt pt' hpt'
        rw [compat_pointer_eq]
        simp only [stripConst]
        rw [compat_pointer_eq]
        cases pt <;> cases pt' <;> simp [stripConst, ih]
  case array.array e n c e' n' c' =>
    cases c' with
    | true => exfalso; simp [stripConst] at hb
    | false =>
        have he' : stripConst e' = e' := by
          simp [stripConst] at hb
          exact hb
        have ih := c2Strip e e' he'
        rw [compat_array_eq2]
        simp only [stripConst]
        rw [compat_array_eq2]
        cases heval1 : evaluateCompileTimeExpression n <;>
          cases heval2 : evaluateCompileTimeExpression n' <;>
            simp [Bind.bind, Except.bind, heval1, heval2, ih]
  case struct.struct t fs t' fs' =>
    have hfs' : stripConstFields fs' = fs' := by
      simp [stripConst] at hb
      exact hb
    have ih := fieldsStrip fs fs' hfs'
    rw [compat_struct_eq]
    simp only [stripConst]
    rw [compat_struct_eq]
    simp [stripFields_length, ih]
  case enum.enum t t' =>
    simp [stripConst, compat_enum_eq]
  case function.function r ps r' ps' =>
    have hinv : stripConst r' = r' ∧ stripConstParams ps' = ps' := by
      simp [stripConst] at hb
      exact hb
    have ihr := c2Strip r r' hinv.1
    have ihp := paramsStrip ps ps' hinv.2
    rw [compat_function_eq]
    simp only [stripConst]
    rw [compat_function_eq]
    cases r <;> cases r' <;>
      simp [stripConst, ihr, ihp, stripParams_length, Bind.bind, Except.bind]
  case void.void => simp [stripConst]
  all_goals
    refine (compat_kind_mismatch _ _ _ ?_).trans (compat_kind_mismatch _ _ _ ?_).symm <;>
      simp [stripConst, DataType.kindIndex]

theorem fieldStrip (f g : StructField) (hg : stripConstField g = g) :
    checkStructFieldCompatibility f g true = checkStructFieldCompatibility (stripConstField f) g true := by
  cases f with
  | selfPointer ta => simp [stripConstField]
  | field ta d =>
      cases g with
      | selfPointer tb => simp [checkStructFieldCompatibility, stripConstField]
      | field tb d' =>
          have hd' : stripConst d' = d' := by
            simp [stripConstField] at hg
            exact hg
          have ih := c2Strip d d' hd'
          simp [checkStructFieldCompatibility, stripConstField, ih]

theorem fieldsStrip (fa fb : FieldList) (hb : stripConstFields fb = fb) :
    compatFieldsLoop fa fb true = compatFieldsLoop (stripConstFields fa) fb true := by
  cases fa with
  | nil => simp [stripConstFields]
  | cons f ra =>
      cases fb with
      | nil =>
          cases f <;>
            simp [stripConstFields, stripConstField, compatFieldsLoop]
      | cons g rb =>
          have hinv : stripConstField g = g ∧ stripConstFields rb = rb := by
            simp [stripConstFields] at hb
            exact hb
          have ihf := fieldStrip f g hinv.1
          have ihr := fieldsStrip ra rb hinv.2
          rw [compatFieldsLoop]
          simp only [stripConstFields]
          rw [compatFieldsLoop]
          simp [ihf, ihr, Bind.bind, Except.bind]

theorem paramsStrip (pa pb : ParamList) (hb : stripConstParams pb = pb) :
    compatParamsLoop pa pb true = compatParamsLoop (stripConstParams pa) pb true := by
  cases pa with
  | nil => simp [stripConstParams]
  | cons p ra =>
      cases pb with
      | nil => simp [stripConstParams, compatParamsLoop]
      | cons p' rb =>
          have hinv : stripConst p' = p' ∧ stripConstParams rb = rb := by
            simp [stripConstParams] at hb
            exact hb
          have ihp := c2Strip p p' hinv.1
          have ihr := paramsStrip ra rb hinv.2
          rw [compatParamsLoop]
          simp only [stripConstParams]
          rw [compatParamsLoop]
          simp [ihp, ihr, Bind.bind, Except.bind]
end

/-- C1 counterexample: with `ignoreQualifiers = true`, `const signed int`
is compatible with `signed int` but not vice versa — the const check's
second disjunct is not guarded by the flag, so symmetry fails. -/
theorem c1_compat_counterexample :
    checkDataTypeCompatibility (.primary .signedInt true) (.primary .signedInt false) true = .ok true ∧
    checkDataTypeCompatibility (.primary .signedInt false) (.primary .signedInt true) true = .ok false :=
  ⟨rfl, rfl⟩

/-- C1 (amended): compatibility is reflexive for either flag setting on
every data type whose array sizes are compile-time evaluable, and with
`ignoreQualifiers = false` it is symmetric whenever it returns; symmetry
can fail when the flag is `true` (see the counterexample). -/
theorem c1_compat_reflexivity_and_conditional_symmetry (t a b : DataType) (q r : Bool) :
    (arraySizesEvaluable t = true → checkDataTypeCompatibility t t q = .ok true) ∧
    (checkDataTypeCompatibility a b false = .ok r → checkDataTypeCompatibility b a false = .ok r) := by
  constructor
  · exact compatRefl t q
  · intro h
    rw [← compatSymm a b]
    exact h

/-- Witness for C1 at concrete inputs: reflexivity on `int[2]`, and
symmetry of the (false) result for `double *` against `void *`. -/
theorem c1_witness :
    (arraySizesEvaluable (.array (.primary .signedInt false) (.intLit 2) false) = true ∧
     checkDataTypeCompatibility (.array (.primary .signedInt false) (.intLit 2) false)
       (.array (.primary .signedInt false) (.intLit 2) false) true = .ok true) ∧
    checkDataTypeCompatibility (.pointer .void false) (.pointer (.primary .double false) false) false = .ok false :=
  ⟨⟨rfl,
    (c1_compat_reflexivity_and_conditional_symmetry
      (.array (.primary .signedInt false) (.intLit 2) false)
      (.pointer (.primary .double false) false) (.pointer .void false) true false).1 rfl⟩,
    (c1_compat_reflexivity_and_conditional_symmetry
      (.array (.primary .signedInt false) (.intLit 2) false)
      (.pointer (.primary .double false) false) (.pointer .void false) true false).2 rfl⟩

/-- C2 counterexample: with `ignoreQualifiers = true`, `signed int`
against `const signed int` is rejected although the const-stripped types
are compatible — a const qualifier on the second argument alone still
makes otherwise identical types incompatible. -/
theorem c2_ignoreQualifiers_counterexample :
    checkDataTypeCompatibility (.primary .signedInt false) (.primary .signedInt true) true = .ok false ∧
    checkDataTypeCompatibility (stripConst (.primary .signedInt false))
      (stripConst (.primary .signedInt true)) true = .ok true :=
  ⟨rfl, rfl⟩

/-- C2 (amended): when `ignoreQualifiers` is true only the first
argument's const qualifiers are ignored — against a const-free second
argument, stripping every const qualifier from the first argument never
changes the result. -/
theorem c2_const_ignored_on_first_argument (a b : DataType) (hb : stripConst b = b) :
    checkDataTypeCompatibility a b true = checkDataTypeCompatibility (stripConst a) b true :=
  c2Strip a b hb

/-- Witness for C2 at a concrete input: a doubly-const pointer type
against the const-free `int *`. -/
theorem c2_witness :
    stripConst (.pointer (.primary .signedInt false) false) = .pointer (.primary .signedInt false) false ∧
    checkDataTypeCompatibility (.pointer (.primary .signedInt true) true)
        (.pointer (.primary .signedInt false) false) true =
      checkDataTypeCompatibility (stripConst (.pointer (.primary .signedInt true) true))
        (.pointer (.primary .signedInt false) false) true :=
  ⟨rfl, c2_const_ignored_on_first_argument (.pointer (.primary .signedInt true) true)
          (.pointer (.primary .signedInt false) false) rfl⟩

theorem sumScalarSizes_append (l1 l2 : List PrimaryDataTypeMemoryObjectDetails) :
    sumScalarSizes (l1 ++ l2) = sumScalarSizes l1 + sumScalarSizes l2 := by
  induction l1 with
  | nil => simp [sumScalarSizes]
  | cons o rest ih => simp [sumScalarSizes, ih]; omega

mutual
theorem sizeOk : ∀ (t : DataType), sizeWellFormed t = true → ∃ n, getDataTypeSize t = .ok n
  | .primary p c, _ => ⟨_, rfl⟩
  | .pointer pt c, _ => ⟨_, rfl⟩
  | .enum t, _ => ⟨_, rfl⟩
  | .array e n c, h => by
      have hsplit :
          (match evaluateCompileTimeExpression n with
           | .ok (.IntegerConstant v _) => decide (0 ≤ v)
           | _ => false) = true ∧ sizeWellFormed e = true := by
        simpa [sizeWellFormed, Bool.and_eq_true] using h
      obtain ⟨m, hm⟩ := sizeOk e hsplit.2
      have h1 := hsplit.1
      cases heval : evaluateCompileTimeExpression n with
      | error err => rw [heval] at h1; simp at h1
      | ok cst =>
          cases cst with
          | FloatConstant v dt => rw [heval] at h1; simp at h1
          | IntegerConstant v dt =>
              exact ⟨v * m, by
                simp [getDataTypeSize, getNumberOfElementsInArray, heval, hm,
                  Bind.bind, Except.bind]⟩
  | .struct t fs, h => by
      obtain ⟨n, hn⟩ := fieldsSizeOk fs (by simpa [sizeWellFormed] using h)
      exact ⟨n, by simp [getDataTypeSize, hn]⟩
  | .function r ps, h => by simp [sizeWellFormed] at h
  | .void, h => by simp [sizeWellFormed] at h

theorem fieldsSizeOk : ∀ (fs : FieldList), fieldsSizeWellFormed fs = true →
    ∃ n, structFieldsSize fs = .ok n
  | .nil, _ => ⟨0, rfl⟩
  | .cons (.selfPointer t) rest, h => by
      obtain ⟨n, hn⟩ := fieldsSizeOk rest (by simpa [fieldsSizeWellFormed, fieldSizeWellFormed] using h)
      exact ⟨n + POINTER_SIZE, by simp [structFieldsSize, hn, Bind.bind, Except.bind]⟩
  | .cons (.field t d) rest, h => by
      have hsplit : sizeWellFormed d = true ∧ fieldsSizeWellFormed rest = true := by
        simpa [fieldsSizeWellFormed, fieldSizeWellFormed, Bool.and_eq_true] using h
      obtain ⟨m, hm⟩ := sizeOk d hsplit.1
      obtain ⟨n, hn⟩ := fieldsSizeOk rest hsplit.2
      exact ⟨n + m, by simp [structFieldsSize, hm, hn, Bind.bind, Except.bind]⟩
end

theorem repeatM_unpack (e : DataType) (s : Int)
    (helem : ∀ off : Int, ∃ l off',
        unpackHelper e off = .ok (l, off') ∧ sumScalarSizes l = s) :
    ∀ (k : Nat) (acc : List PrimaryDataTypeMemoryObjectDetails) (off : Int),
      ∃ l off',
        repeatM k
          (fun st => do
            let (l, off) ← unpackHelper e st.2
            (.ok (st.1 ++ l, off) : Except Err (List PrimaryDataTypeMemoryObjectDetails × Int)))
          (acc, off) = .ok (acc ++ l, off') ∧
        sumScalarSizes l = (k : Int) * s := by
  intro k
  induction k with
  | zero =>
      intro acc off
      exact ⟨[], off, by simp [repeatM], by simp [sumScalarSizes]⟩
  | succ k ih =>
      intro acc off
      obtain ⟨l1, off1, hrun1, hsum1⟩ := helem off
      obtain ⟨l2, off2, hrun2, hsum2⟩ := ih (acc ++ l1) off1
      refine ⟨l1 ++ l2, off2, ?_, ?_⟩
      · rw [repeatM]
        simp only [Bind.bind, Except.bind, hrun1]
        rw [← List.append_assoc]
        exact hrun2
      · rw [sumScalarSizes_append, hsum1, hsum2]
        push_cast
        ring

mutual
theorem unpackSum : ∀ (t : DataType), sizeWellFormed t = true → ∀ off : Int,
    ∃ l off', unpackHelper t off = .ok (l, off') ∧
      getDataTypeSize t = .ok (sumScalarSizes l)
  | .primary p c, _, off => by
      refine ⟨[⟨.primary p, off⟩], off + getSizeOfScalarDataType (.primary p), ?_, ?_⟩
      · simp [unpackHelper, getDataTypeSize, Bind.bind, Except.bind]
      · simp [getDataTypeSize, sumScalarSizes]
  | .pointer pt c, _, off => by
      refine ⟨[⟨.pointer, off⟩], off + getSizeOfScalarDataType .pointer, ?_, ?_⟩
      · simp [unpackHelper, getDataTypeSize, Bind.bind, Except.bind]
      · simp [getDataTypeSize, sumScalarSizes]
  | .enum t, _, off => by
      refine ⟨[⟨.primary ENUM_DATA_TYPE, off⟩], off + getSizeOfScalarDataType (.primary ENUM_DATA_TYPE), ?_, ?_⟩
      · simp [unpackHelper, getDataTypeSize, getSizeOfScalarDataType, Bind.bind, Except.bind]
      · simp [getDataTypeSize, sumScalarSizes, getSizeOfScalarDataType]
  | .array e n c, h, off => by
      have hsplit :
          (match evaluateCompileTimeExpression n with
           | .ok (.IntegerConstant v _) => decide (0 ≤ v)
           | _ => false) = true ∧ sizeWellFormed e = true := by
        simpa [sizeWellFormed, Bool.and_eq_true] using h
      have h1 := hsplit.1
      cases heval : evaluateCompileTimeExpression n with
      | error err => rw [heval] at h1; simp at h1
      | ok cst =>
          cases cst with
          | FloatConstant v dt => rw [heval] at h1; simp at h1
          | IntegerConstant v dt =>
              rw [heval] at h1
              simp at h1
              obtain ⟨le, offe, hrune, hsume⟩ := unpackSum e hsplit.2 0
              have helem : ∀ o : Int, ∃ l off',
                  unpackHelper e o = .ok (l, off') ∧ sumScalarSizes l = sumScalarSizes le := by
                intro o
                obtain ⟨l', off', hrun', hsum'⟩ := unpackSum e hsplit.2 o
                refine ⟨l', off', hrun', ?_⟩
                rw [hsume] at hsum'
                exact (Except.ok.injEq _ _).mp hsum'.symm
              obtain ⟨l, off', hrep, hsum⟩ := repeatM_unpack e (sumScalarSizes le) helem v.toNat [] off
              refine ⟨l, off', ?_, ?_⟩
              · rw [unpackHelper]
                simp only [getNumberOfElementsInArray, heval, Bind.bind, Except.bind]
                simpa using hrep
              · rw [getDataTypeSize]
                simp only [getNumberOfElementsInArray, heval, Bind.bind, Except.bind, hsume]
                rw [hsum]
                congr 1
                rw [Int.toNat_of_nonneg h1]
  | .struct tg fs, h, off => by
      have hwf : fieldsSizeWellFormed fs = true := by simpa [sizeWellFormed] using h
      have hsz := sizeOk (.struct tg fs) h
      obtain ⟨l, off', hrun, hsum⟩ := unpackFieldsSum (.struct tg fs) hsz fs hwf off
      refine ⟨l, off', ?_, ?_⟩
      · rw [unpackHelper]; exact hrun
      · rw [getDataTypeSize]; exact hsum
  | .function r ps, h, off => by simp [sizeWellFormed] at h
  | .void, h, off => by simp [sizeWellFormed] at h

theorem unpackFieldsSum : ∀ (enclosing : DataType), (∃ s, getDataTypeSize enclosing = .ok s) →
    ∀ (fs : FieldList), fieldsSizeWellFormed fs = true → ∀ off : Int,
    ∃ l off', unpackFieldsHelper enclosing fs off = .ok (l, off') ∧
      structFieldsSize fs = .ok (sumScalarSizes l)
  | enclosing, _, .nil, _, off => ⟨[], off, rfl, rfl⟩
  | enclosing, hsz, .cons (.selfPointer t) rest, h, off => by
      obtain ⟨s, hs⟩ := hsz
      obtain ⟨l, off', hrun, hsum⟩ :=
        unpackFieldsSum enclosing ⟨s, hs⟩ rest
          (by simpa [fieldsSizeWellFormed, fieldSizeWellFormed] using h) (off + s)
      refine ⟨⟨.pointer, off⟩ :: l, off', ?_, ?_⟩
      · rw [unpackFieldsHelper]
        simp [hs, hrun, Bind.bind, Except.bind]
      · rw [structFieldsSize]
        simp [hsum, Bind.bind, Except.bind, sumScalarSizes, getSizeOfScalarDataType, POINTER_SIZE]
        omega
  | enclosing, hsz, .cons (.field t d) rest, h, off => by
      have hsplit : sizeWellFormed d = true ∧ fieldsSizeWellFormed rest = true := by
        simpa [fieldsSizeWellFormed, fieldSizeWellFormed, Bool.and_eq_true] using h
      obtain ⟨l1, off1, hrun1, hsum1⟩ := unpackSum d hsplit.1 off
      obtain ⟨l2, off2, hrun2, hsum2⟩ := unpackFieldsSum enclosing hsz rest hsplit.2 off1
      refine ⟨l1 ++ l2, off2, ?_, ?_⟩
      · rw [unpackFieldsHelper]
        simp [hrun1, hrun2, Bind.bind, Except.bind]
      · rw [structFieldsSize]
        simp [hsum1, hsum2, Bind.bind, Except.bind, sumScalarSizes_append]
        omega
end

/-- C3: for every data type on which both functions succeed (delimited
by `sizeWellFormed`: primaries, pointers, enums, arrays with constant
non-negative element counts, structs of such types including
struct-self-pointer fields), `getDataTypeSize` equals the sum of the
scalar sizes of the elements returned by `unpackDataType`. -/
theorem c3_size_eq_sum_of_unpacked (t : DataType) (objs : List PrimaryDataTypeMemoryObjectDetails)
    (hwf : sizeWellFormed t = true) (hunpack : unpackDataType t = .ok objs) :
    getDataTypeSize t = .ok (sumScalarSizes objs) := by
  obtain ⟨l, off', hrun, hsize⟩ := unpackSum t hwf 0
  rw [unpackDataType] at hunpack
  simp only [hrun, Bind.bind, Except.bind] at hunpack
  obtain rfl : l = objs := by simpa using hunpack
  exact hsize

/-- Witness for C3 at a concrete input: `struct L { struct L *next; int x; }`
(a struct with a self-pointer field followed by a further field). -/
theorem c3_witness :
    sizeWellFormed (.struct (some "L")
        (.cons (.selfPointer "next") (.cons (.field "x" (.primary .signedInt false)) .nil))) = true ∧
    unpackDataType (.struct (some "L")
        (.cons (.selfPointer "next") (.cons (.field "x" (.primary .signedInt false)) .nil))) =
      .ok [⟨.pointer, 0⟩, ⟨.primary .signedInt, 8⟩] ∧
    getDataTypeSize (.struct (some "L")
        (.cons (.selfPointer "next") (.cons (.field "x" (.primary .signedInt false)) .nil))) =
      .ok (sumScalarSizes [⟨.pointer, 0⟩, ⟨.primary .signedInt, 8⟩]) :=
  ⟨rfl, rfl,
    c3_size_eq_sum_of_unpacked
      (.struct (some "L") (.cons (.selfPointer "next") (.cons (.field "x" (.primary .signedInt false)) .nil)))
      [⟨.pointer, 0⟩, ⟨.primary .signedInt, 8⟩] rfl rfl⟩

/-- Inversion of an `Except` bind that returned `ok`. -/
theorem exceptBind_ok {α β : Type} (x : Except Err α) (f : α → Except Err β) (b : β)
    (h : (x >>= f) = .ok b) : ∃ a, x = .ok a ∧ f a = .ok b := by
  cases x with
  | ok a => exact ⟨a, rfl, by simpa [Bind.bind, Except.bind] using h⟩
  | error e => simp [Bind.bind, Except.bind] at h

/-- The parameter loop of `convertFunctionDataTypeToFunctionDetails`
appends exactly the spec layout of the remaining parameters and adds
exactly their total size, leaving the return fields untouched. -/
theorem convertParamsLoop_spec : ∀ (ps : ParamList) (offset : Int) (det det' : FunctionDetails),
    convertParamsLoop ps offset det = .ok det' →
    ∃ tail total, specParameterLayout ps offset = .ok tail ∧ paramSizesSum ps = .ok total ∧
      det'.parameters = det.parameters ++ tail ∧
      det'.sizeOfParams = det.sizeOfParams + total ∧
      det'.sizeOfReturn = det.sizeOfReturn ∧ det'.returnObjects = det.returnObjects
  | .nil, offset, det, det', h => by
      rw [convertParamsLoop] at h
      obtain rfl : det = det' := by simpa using h
      exact ⟨[], 0, rfl, rfl, by simp, by simp, rfl, rfl⟩
  | .cons p rest, offset, det, det', h => by
      rw [convertParamsLoop] at h
      cases hsz : getDataTypeSize p with
      | error e => rw [hsz] at h; simp [Bind.bind, Except.bind] at h
      | ok sz =>
          cases hup : unpackDataType p with
          | error e => rw [hsz, hup] at h; simp [Bind.bind, Except.bind] at h
          | ok ups =>
              rw [hsz, hup] at h
              simp only [Bind.bind, Except.bind] at h
              obtain ⟨tail, total, hlay, htot, hpar, hsum, hret, hrobj⟩ :=
                convertParamsLoop_spec rest (offset - sz) _ det' h
              refine ⟨(ups.map fun s => ⟨s.dataType, (offset - sz) + s.offset⟩).reverse ++ tail,
                sz + total, ?_, ?_, ?_, ?_, ?_, ?_⟩
              · rw [specParameterLayout]
                simp [hsz, hup, hlay, Bind.bind, Except.bind]
              · rw [paramSizesSum]
                simp [hsz, htot, Bind.bind, Except.bind]
              · rw [hpar]
                simp [List.append_assoc]
              · rw [hsum]
                simp
                omega
              · rw [hret]
              · rw [hrobj]

/-- C8: when `convertFunctionDataTypeToFunctionDetails` succeeds, the
`parameters` field is exactly the layout that rebases each parameter's
unpacked primaries at a falling offset (each parameter's block starting
at the running offset minus its size, its primaries listed in reverse),
and `sizeOfParams` is exactly the sum of the parameter sizes. -/
theorem c8_function_details_parameter_layout (returnType : DataType) (parameters : ParamList) (det : FunctionDetails)
    (h : convertFunctionDataTypeToFunctionDetails returnType parameters = .ok det) :
    specParameterLayout parameters 0 = .ok det.parameters ∧
    paramSizesSum parameters = .ok det.sizeOfParams := by
  have hmain : ∃ w : FunctionDetails, w.parameters = [] ∧ w.sizeOfParams = 0 ∧
      convertParamsLoop parameters 0 w = .ok det := by
    cases returnType with
    | void =>
        rw [convertFunctionDataTypeToFunctionDetails] at h
        exact ⟨⟨0, 0, [], none⟩, rfl, rfl, by simpa [Bind.bind, Except.bind] using h⟩
    | array e n c =>
        rw [convertFunctionDataTypeToFunctionDetails] at h
        simp [Bind.bind, Except.bind] at h
    | primary p c =>
        rw [convertFunctionDataTypeToFunctionDetails] at h
        case x_1 => intro hc; cases hc
        case x_2 => intro a b c hc; cases hc
        cases hsz : getDataTypeSize (.primary p c) with
        | error e => rw [hsz] at h; simp [Bind.bind, Except.bind] at h
        | ok sz =>
            cases hup : unpackDataType (.primary p c) with
            | error e => rw [hsz, hup] at h; simp [Bind.bind, Except.bind] at h
            | ok ups =>
                rw [hsz, hup] at h
                simp only [Bind.bind, Except.bind, pure, Except.pure] at h
                exact ⟨_, rfl, rfl, h⟩
    | pointer pt c =>
        rw [convertFunctionDataTypeToFunctionDetails] at h
        case x_1 => intro hc; cases hc
        case x_2 => intro a b c hc; cases hc
        cases hsz : getDataTypeSize (.pointer pt c) with
        | error e => rw [hsz] at h; simp [Bind.bind, Except.bind] at h
        | ok sz =>
            cases hup : unpackDataType (.pointer pt c) with
            | error e => rw [hsz, hup] at h; simp [Bind.bind, Except.bind] at h
            | ok ups =>
                rw [hsz, hup] at h
                simp only [Bind.bind, Except.bind, pure, Except.pure] at h
                exact ⟨_, rfl, rfl, h⟩
    | struct t fs =>
        rw [convertFunctionDataTypeToFunctionDetails] at h
        case x_1 => intro hc; cases hc
        case x_2 => intro a b c hc; cases hc
        cases hsz : getDataTypeSize (.struct t fs) with
        | error e => rw [hsz] at h; simp [Bind.bind, Except.bind] at h
        | ok sz =>
            cases hup : unpackDataType (.struct t fs) with
            | error e => rw [hsz, hup] at h; simp [Bind.bind, Except.bind] at h
            | ok ups =>
                rw [hsz, hup] at h
                simp only [Bind.bind, Except.bind, pure, Except.pure] at h
                exact ⟨_, rfl, rfl, h⟩
    | enum t =>
        rw [convertFunctionDataTypeToFunctionDetails] at h
        case x_1 => intro hc; cases hc
        case x_2 => intro a b c hc; cases hc
        cases hsz : getDataTypeSize (.enum t) with
        | error e => rw [hsz] at h; simp [Bind.bind, Except.bind] at h
        | ok sz =>
            cases hup : unpackDataType (.enum t) with
            | error e => rw [hsz, hup] at h; simp [Bind.bind, Except.bind] at h
            | ok ups =>
                rw [hsz, hup] at h
                simp only [Bind.bind, Except.bind, pure, Except.pure] at h
                exact ⟨_, rfl, rfl, h⟩
    | function r ps =>
        rw [convertFunctionDataTypeToFunctionDetails] at h
        case x_1 => intro hc; cases hc
        case x_2 => intro a b c hc; cases hc
        cases hsz : getDataTypeSize (.function r ps) with
        | error e => rw [hsz] at h; simp [Bind.bind, Except.bind] at h
        | ok sz =>
            cases hup : unpackDataType (.function r ps) with
            | error e => rw [hsz, hup] at h; simp [Bind.bind, Except.bind] at h
            | ok ups =>
                rw [hsz, hup] at h
                simp only [Bind.bind, Except.bind, pure, Except.pure] at h
                exact ⟨_, rfl, rfl, h⟩
  obtain ⟨w, hwp, hws, hloop⟩ := hmain
  obtain ⟨tail, total, hlay, htot, hpar, hsum, -, -⟩ :=
    convertParamsLoop_spec parameters 0 w det hloop
  constructor
  · rw [hlay, hpar, hwp]
    simp
  · rw [htot, hsum, hws]
    simp

/-- Witness for C8 at `int f(int, float)`. -/
theorem c8_witness :
    convertFunctionDataTypeToFunctionDetails (.primary .signedInt false)
      (.cons (.primary .signedInt false) (.cons (.primary .float false) .nil))
      = .ok ⟨8, 4, [⟨.primary .signedInt, -4⟩, ⟨.primary .float, -8⟩],
             some [⟨.primary .signedInt, 0⟩]⟩ ∧
    specParameterLayout (.cons (.primary .signedInt false) (.cons (.primary .float false) .nil)) 0
      = .ok [⟨.primary .signedInt, -4⟩, ⟨.primary .float, -8⟩] ∧
    paramSizesSum (.cons (.primary .signedInt false) (.cons (.primary .float false) .nil)) = .ok 8 := by
  have h : convertFunctionDataTypeToFunctionDetails (.primary .signedInt false)
      (.cons (.primary .signedInt false) (.cons (.primary .float false) .nil))
      = .ok ⟨8, 4, [⟨.primary .signedInt, -4⟩, ⟨.primary .float, -8⟩],
             some [⟨.primary .signedInt, 0⟩]⟩ := by rfl
  exact ⟨h, (c8_function_details_parameter_layout _ _ _ h).1, (c8_function_details_parameter_layout _ _ _ h).2⟩

/-- C4 (amended, local side): in the local-variable variant, when the
initializer is a list, the basic checks pass, and the recursive helper
finishes with a cursor short of the list's length, processing fails with
"excess elements in initializer".  (The data-segment variant performs no
such comparison: see the counterexample theorem.) -/
theorem c4_excess_check_local_only (dataType : DataType) (vals : InitializerList) (variableOffset : Int)
    (f : Nat) (st' : LState)
    (hchecks : runInitializerChecks dataType (.list vals) = .ok ())
    (hrun : localHelper dataType (.list vals) 0 ⟨variableOffset, [], none⟩ = .ok (f, st'))
    (hlt : f < vals.length) :
    unpackLocalVariableInitializerAccordingToDataType dataType variableOffset (.list vals) =
      .error (.processing "excess elements in initializer") := by
  rw [unpackLocalVariableInitializerAccordingToDataType]
  simp only [hchecks, Bind.bind, Except.bind, helperWithExcessInitializerCheck, hrun]
  simp [hlt]

/-- Witness for C4 at `int x[1] = {1, 2};`: the local unpacker rejects
the second element. -/
theorem c4_witness :
    unpackLocalVariableInitializerAccordingToDataType
      (.array (.primary .signedInt false) (.intLit 1) false) (-8)
      (.list (.cons (.single (.intLit 1)) (.cons (.single (.intLit 2)) .nil)))
      = .error (.processing "excess elements in initializer") := by
  obtain ⟨st', hrun⟩ : ∃ st',
      localHelper (.array (.primary .signedInt false) (.intLit 1) false)
        (.list (.cons (.single (.intLit 1)) (.cons (.single (.intLit 2)) .nil))) 0 ⟨-8, [], none⟩
        = .ok (1, st') := ⟨_, by rfl⟩
  exact c4_excess_check_local_only _ _ _ 1 st' (by rfl) hrun (by decide)

/-- C10: `processLocalDeclaration` returns no statements whenever the
symbol-table entry created for the declaration is a function or
data-segment (static) entry; a nonempty statement list implies the entry
is a local variable and the declaration carries an initializer; and the
enclosing function's record changes (its `sizeOfLocals` grows) only when
the entry is a local variable. -/
theorem c10_local_declaration_statements (declaration : Declaration) (symbolTable : SymbolTable)
    (enclosingFunc : Option FunctionDefinitionP)
    (stmts : List MemoryStore) (st' : SymbolTable) (f' : Option FunctionDefinitionP)
    (h : processLocalDeclaration declaration symbolTable enclosingFunc = .ok (stmts, st', f')) :
    (∀ e st2, addEntry declaration symbolTable = .ok (e, st2) →
        e.isFunctionOrDataSegment = true → stmts = [] ∧ f' = enclosingFunc) ∧
    (stmts ≠ [] → ∃ e st2, addEntry declaration symbolTable = .ok (e, st2) ∧
        e.isLocalVariable = true ∧ declaration.initializerOf ≠ none) ∧
    (f' ≠ enclosingFunc → ∃ e st2, addEntry declaration symbolTable = .ok (e, st2) ∧
        e.isLocalVariable = true) := by
  cases declaration with
  | enumDeclaration tag members =>
      rw [processLocalDeclaration.eq_def] at h
      obtain ⟨st2, hst2, hok⟩ := exceptBind_ok _ _ _ h
      simp only [Except.ok.injEq, Prod.mk.injEq] at hok
      obtain ⟨rfl, rfl, rfl⟩ := hok
      exact ⟨fun _ _ _ _ => ⟨rfl, rfl⟩, fun hne => absurd rfl hne, fun hne => absurd rfl hne⟩
  | varDecl name dataType storageClass initializer =>
      rw [processLocalDeclaration.eq_def] at h
      obtain ⟨r, hadd, hrest⟩ := exceptBind_ok _ _ _ h
      obtain ⟨e, st2⟩ := r
      cases e with
      | functionEntry dt =>
          simp only [Except.ok.injEq, Prod.mk.injEq] at hrest
          obtain ⟨rfl, rfl, rfl⟩ := hrest
          exact ⟨fun _ _ _ _ => ⟨rfl, rfl⟩, fun hne => absurd rfl hne, fun hne => absurd rfl hne⟩
      | dataSegmentVariable dt off =>
          simp only [Except.ok.injEq, Prod.mk.injEq] at hrest
          obtain ⟨rfl, rfl, rfl⟩ := hrest
          exact ⟨fun _ _ _ _ => ⟨rfl, rfl⟩, fun hne => absurd rfl hne, fun hne => absurd rfl hne⟩
      | enumeratorEntry v => exact absurd hrest (by simp)
      | localVariable dt off =>
          refine ⟨?_, ?_, ?_⟩
          · intro e' st2' hadd' hfds
            rw [hadd] at hadd'
            simp only [Except.ok.injEq, Prod.mk.injEq] at hadd'
            obtain ⟨rfl, rfl⟩ := hadd'
            simp [SymbolEntry.isFunctionOrDataSegment] at hfds
          · intro hne
            refine ⟨.localVariable dt off, st2, hadd, rfl, ?_⟩
            cases initializer with
            | some i => simp [Declaration.initializerOf]
            | none =>
                exfalso
                apply hne
                obtain ⟨en, hen, hok⟩ := exceptBind_ok _ _ _ hrest
                simp only [Except.ok.injEq, Prod.mk.injEq] at hok
                exact hok.1.symm
          · intro hne
            exact ⟨.localVariable dt off, st2, hadd, rfl⟩

/-- Witness for C10 at `int x = 5;` inside a function: the produced
store list is nonempty, so the entry is a local variable with an
initializer. -/
theorem c10_witness :
    ∃ e st2, addEntry (.varDecl "x" (.primary .signedInt false) .noSpecifier
        (some (.single (.intLit 5)))) ⟨[], 0, 0, ""⟩ = .ok (e, st2) ∧
      e.isLocalVariable = true ∧
      (Declaration.varDecl "x" (.primary .signedInt false) .noSpecifier
        (some (.single (.intLit 5)))).initializerOf ≠ none := by
  obtain ⟨stmts, st2, f2, hrun, hne⟩ : ∃ stmts st2 f2,
      processLocalDeclaration (.varDecl "x" (.primary .signedInt false) .noSpecifier
        (some (.single (.intLit 5)))) ⟨[], 0, 0, ""⟩ (some ⟨0⟩) = .ok (stmts, st2, f2) ∧
      stmts ≠ [] := ⟨_, _, _, by rfl, by simp [pushStoreRaw]⟩
  exact (c10_local_declaration_statements _ _ _ _ _ _ hrun).2.1 hne
